import Mathlib

/-!
Verification development for the orbital camera controller (`SmoothControls`)
of the RuleStoreAR repository.  The controller source lives in
`src/ARProject/ARProject.Web/wwwroot/lib/google/model-viewer/lib/features/environment.d.ts`
(the second embedded document, the compiled `SmoothControls.js`).

The JavaScript floating point numbers are modelled as real numbers.  Optional
axis bounds (the source uses the IEEE values `-Infinity` / `Infinity` for
unbounded axes, tested with `isFinite`) are modelled as `Option ℝ`: `none` on
a lower bound stands for `-Infinity`, `none` on an upper bound stands for
`Infinity`.
-/

namespace SmoothControls

/-- Touch gesture intent, field `touchMode` of the controller. -/
inductive TouchMode
  | rotate
  | zoom
  | scroll
deriving DecidableEq

/-- Interaction policy of the constraint configuration. -/
inductive InteractionPolicy
  | alwaysAllow
  | allowWhenFocused
deriving DecidableEq

/-- Touch pass-through axis (`touchAction` option). -/
inductive TouchAction
  | none
  | panX
  | panY
deriving DecidableEq

/-- A touch point (the `clientX` / `clientY` pixel coordinates used by the
controller). -/
structure Touch where
  clientX : ℝ
  clientY : ℝ

/-- Last pointer position bookkeeping (`lastPointerPosition`). -/
structure Pos where
  clientX : ℝ
  clientY : ℝ

/-- Spherical orbital coordinates, field order as in the three.js `Spherical`
class the source instantiates (radius, polar angle phi, azimuthal angle
theta). -/
structure Spherical where
  radius : ℝ
  phi : ℝ
  theta : ℝ

/-- The camera handle: position, the Euler rotation written by `moveCamera`
and the vertical field of view in degrees. -/
structure Camera where
  position : ℝ × ℝ × ℝ
  rotation : ℝ × ℝ × ℝ
  fov : ℝ

/-- The input surface: its pixel height (used to convert pixel deltas to
angles) and whether it currently holds the input focus (the source checks
`rootNode.activeElement === this.element`). -/
structure Element where
  clientHeight : ℝ
  focused : Bool

/-- Constraint configuration (`this._options`).  `none` bounds are the IEEE
infinities of the source. -/
structure Options where
  minimumRadius : Option ℝ
  maximumRadius : Option ℝ
  minimumPolarAngle : Option ℝ
  maximumPolarAngle : Option ℝ
  minimumAzimuthalAngle : Option ℝ
  maximumAzimuthalAngle : Option ℝ
  minimumFieldOfView : ℝ
  maximumFieldOfView : ℝ
  interactionPolicy : InteractionPolicy
  touchAction : TouchAction

/-- `DEFAULT_OPTIONS` of the source. -/
noncomputable def DEFAULT_OPTIONS : Options where
  minimumRadius := some 0
  maximumRadius := Option.none
  minimumPolarAngle := some (Real.pi / 8)
  maximumPolarAngle := some (Real.pi - Real.pi / 8)
  minimumAzimuthalAngle := Option.none
  maximumAzimuthalAngle := Option.none
  minimumFieldOfView := 10
  maximumFieldOfView := 45
  interactionPolicy := InteractionPolicy.alwaysAllow
  touchAction := TouchAction.panY

/-- `KEYBOARD_ORBIT_INCREMENT = Math.PI / 8`. -/
noncomputable def KEYBOARD_ORBIT_INCREMENT : ℝ := Real.pi / 8

/-- `ZOOM_SENSITIVITY = 0.04`. -/
def ZOOM_SENSITIVITY : ℝ := 0.04

/-- Modelled from the spec: `SETTLING_TIME` is exported by `Damper.js`, which
is not under `src/`.  It is the elapsed time passed to `update` by
`jumpToGoal` so that the interpolation settles in a single step; any duration
much larger than the decay time works, the model uses 10000 milliseconds. -/
def SETTLING_TIME : ℝ := 10000

/-- Modelled from the spec: the pole-avoidance epsilon of
`Spherical.makeSafe`, which lives in the external three.js library, not under
`src/`.  Spec section 4.2 requires the polar angle to be kept away from the
poles by a small positive tolerance; the model uses 0.000001. -/
def makeSafeEps : ℝ := 0.000001

/-- Modelled from the spec: three.js `Spherical.makeSafe` is not under
`src/`.  Spec section 4.2: it clamps the polar angle into the safe band
around `(0, pi)`, preventing the look direction from passing through the
vertical poles. -/
noncomputable def makeSafe (s : Spherical) : Spherical :=
  { s with phi := max makeSafeEps (min (Real.pi - makeSafeEps) s.phi) }

/-- Modelled from the spec: `clamp` is imported from `utilities.js`, which is
not under `src/`.  Spec section 4.3 calls it the standard clamp; this is the
lower-bound half, where an absent bound (IEEE `-Infinity`) is a no-op. -/
def clampLower : Option ℝ → ℝ → ℝ
  | Option.none, v => v
  | some a, v => max a v

/-- Modelled from the spec: upper-bound half of the standard clamp, where an
absent bound (IEEE `Infinity`) is a no-op. -/
def clampUpper : Option ℝ → ℝ → ℝ
  | Option.none, v => v
  | some b, v => min b v

/-- Modelled from the spec: `clamp(value, lowerLimit, upperLimit)` from
`utilities.js` (not under `src/`), the standard clamp
`max(lower, min(upper, value))`, with optional bounds. -/
def clampOpt (v : ℝ) (lo hi : Option ℝ) : ℝ :=
  clampLower lo (clampUpper hi v)

/-- Modelled from the spec: the standard clamp on two finite bounds (used for
the field of view, whose default bounds are finite). -/
def clampR (v lo hi : ℝ) : ℝ :=
  max lo (min hi v)

/-- `wrapAngle` of the source:
`normalized = (radians + PI) / (2 PI); wrapped = normalized - floor(normalized);
return wrapped * 2 PI - PI`. -/
noncomputable def wrapAngle (radians : ℝ) : ℝ :=
  let normalized := (radians + Real.pi) / (2 * Real.pi)
  let wrapped := normalized - Int.floor normalized
  wrapped * (2 * Real.pi) - Real.pi

lemma two_pi_pos : (0 : ℝ) < 2 * Real.pi := by positivity

lemma wrapAngle_eq_fract (r : ℝ) :
    wrapAngle r = Int.fract ((r + Real.pi) / (2 * Real.pi)) * (2 * Real.pi) - Real.pi := rfl

lemma wrapAngle_lower (r : ℝ) : -Real.pi ≤ wrapAngle r := by
  rw [wrapAngle_eq_fract]
  nlinarith [Int.fract_nonneg ((r + Real.pi) / (2 * Real.pi)), two_pi_pos]

lemma wrapAngle_upper (r : ℝ) : wrapAngle r < Real.pi := by
  rw [wrapAngle_eq_fract]
  nlinarith [Int.fract_lt_one ((r + Real.pi) / (2 * Real.pi)), two_pi_pos]

lemma wrapAngle_sub_eq (r : ℝ) :
    wrapAngle r = r - (2 * Real.pi) * Int.floor ((r + Real.pi) / (2 * Real.pi)) := by
  rw [wrapAngle_eq_fract, Int.fract]
  have h2 : (2 * Real.pi) ≠ 0 := ne_of_gt two_pi_pos
  field_simp
  ring

lemma wrapAngle_congruent (r : ℝ) : ∃ k : ℤ, wrapAngle r = r + 2 * Real.pi * k := by
  refine ⟨-Int.floor ((r + Real.pi) / (2 * Real.pi)), ?_⟩
  rw [wrapAngle_sub_eq]
  push_cast
  ring

lemma wrapAngle_eq_self {r : ℝ} (h1 : -Real.pi ≤ r) (h2 : r < Real.pi) :
    wrapAngle r = r := by
  have hfloor : Int.floor ((r + Real.pi) / (2 * Real.pi)) = 0 := by
    rw [Int.floor_eq_zero_iff]
    constructor
    · apply div_nonneg (by linarith) (le_of_lt two_pi_pos)
    · rw [div_lt_one two_pi_pos]
      linarith
  rw [wrapAngle_sub_eq, hfloor]
  simp

lemma wrapAngle_abs_le (r : ℝ) : |wrapAngle r| ≤ Real.pi := by
  rw [abs_le]
  exact ⟨wrapAngle_lower r, le_of_lt (wrapAngle_upper r)⟩

/-- Full controller state (`SmoothControls` instance fields).  Event
dispatching, the CSS cursor and the DOM listener registration are
notifications and presentation, not numeric state, and are omitted. -/
structure State where
  options : Options
  camera : Camera
  element : Element
  sensitivity : ℝ
  interactionEnabled : Bool
  disableZoom : Bool
  isUserChange : Bool
  isUserPointing : Bool
  spherical : Spherical
  goalSpherical : Spherical
  logFov : ℝ
  goalLogFov : ℝ
  pointerIsDown : Bool
  lastPointerPosition : Pos
  touchMode : TouchMode
  touchDecided : Bool
  lastTouches : List Touch
  decayTime : ℝ

/-- `canInteract` getter: `allow-when-focused` requires the element to be the
active element of its root node, `always-allow` is unconditional. -/
def canInteract (s : State) : Bool :=
  match s.options.interactionPolicy with
  | InteractionPolicy.allowWhenFocused => s.element.focused
  | InteractionPolicy.alwaysAllow => true

/-- The `!isFinite(minimumAzimuthalAngle) && !isFinite(maximumAzimuthalAngle)`
test of the source: both azimuth bounds are the IEEE infinities. -/
def azimuthUnbounded (o : Options) : Bool :=
  o.minimumAzimuthalAngle.isNone && o.maximumAzimuthalAngle.isNone

/-- `setOrbit(goalTheta, goalPhi, goalRadius)` of the source.  Clamps each
argument, rewrites the current (interpolating) azimuth by a whole number of
turns when the azimuth is unbounded, and commits the new goal (with the
pole-safety clamp) only when some clamped component differs from the stored
goal; the returned flag reports whether the goal changed. -/
noncomputable def setOrbit (s : State)
    (goalTheta : ℝ := s.goalSpherical.theta)
    (goalPhi : ℝ := s.goalSpherical.phi)
    (goalRadius : ℝ := s.goalSpherical.radius) : State × Bool :=
  let o := s.options
  let theta := s.goalSpherical.theta
  let phi := s.goalSpherical.phi
  let radius := s.goalSpherical.radius
  let nextTheta := clampOpt goalTheta o.minimumAzimuthalAngle o.maximumAzimuthalAngle
  let s1 :=
    if azimuthUnbounded o then
      { s with spherical :=
        { s.spherical with theta := wrapAngle (s.spherical.theta - nextTheta) + nextTheta } }
    else s
  let nextPhi := clampOpt goalPhi o.minimumPolarAngle o.maximumPolarAngle
  let nextRadius := clampOpt goalRadius o.minimumRadius o.maximumRadius
  if nextTheta = theta ∧ nextPhi = phi ∧ nextRadius = radius then
    (s1, false)
  else
    ({ s1 with
        goalSpherical := makeSafe { radius := nextRadius, phi := nextPhi, theta := nextTheta },
        isUserChange := false },
      true)

/-- `setFieldOfView(fov)`: clamps the degree value into the configured range
and stores its logarithm as the goal. -/
noncomputable def setFieldOfView (s : State) (fov : ℝ) : State :=
  { s with goalLogFov :=
      Real.log (clampR fov s.options.minimumFieldOfView s.options.maximumFieldOfView) }

/-- `setRadius(radius)`: writes the goal radius directly, then re-runs
`setOrbit()` with no arguments (which therefore re-clamps the just-written
radius). -/
noncomputable def setRadius (s : State) (radius : ℝ) : State :=
  let s0 := { s with goalSpherical := { s.goalSpherical with radius := radius } }
  (setOrbit s0).1

/-- The goal-radius expression of `adjustOrbit`: the goal radius moves by
`deltaZoom * min(deltaRatio, maximumRadius - minimumRadius)`, where
`deltaRatio` divides the remaining radius range in the zoom direction by the
remaining log-field-of-view range.  `none` in the intermediate `Option ℝ`
values stands for an IEEE-infinite quantity, exactly what
`isFinite(deltaRatio)` tests in the source.  In the one corner where the
source produces an infinite goal radius (an infinite zoom step towards an
unbounded radius extreme) the model saturates to a finite stand-in one unit
past the current radius; the clamped result agrees with the source whenever
the bound in the zoom direction is finite, and no theorem below depends on
that corner. -/
noncomputable def adjustOrbitGoalRadius (s : State) (deltaZoom : ℝ) : ℝ :=
  let o := s.options
  let radius := s.goalSpherical.radius
  let num : Option ℝ := if 0 < deltaZoom then o.maximumRadius else o.minimumRadius
  let denom : ℝ :=
    Real.log (if 0 < deltaZoom then o.maximumFieldOfView else o.minimumFieldOfView)
      - s.goalLogFov
  let deltaRatio : Option ℝ :=
    if deltaZoom = 0 then some 0
    else
      match num with
      | some b => if denom = 0 then Option.none else some ((b - radius) / denom)
      | Option.none => Option.none
  let span : Option ℝ :=
    match o.maximumRadius, o.minimumRadius with
    | some M, some m => some (M - m)
    | _, _ => Option.none
  let step : Option ℝ :=
    match deltaRatio, span with
    | some x, some y => some (min x y)
    | some x, Option.none => some x
    | Option.none, some y => some y
    | Option.none, Option.none => Option.none
  match step with
  | some m => radius + deltaZoom * m
  | Option.none =>
      if 0 < deltaZoom then
        match o.maximumRadius with
        | some M => M
        | Option.none => radius + 1
      else
        match o.minimumRadius with
        | some m => m
        | Option.none => radius - 1

/-- `adjustOrbit(deltaTheta, deltaPhi, deltaZoom)` of the source.  The
azimuth delta is clamped so the new goal azimuth stays within `pi - 0.001`
of the current azimuth, the polar delta is subtracted from the goal polar
angle, and a nonzero `deltaZoom` moves the goal radius (see
`adjustOrbitGoalRadius`) and adds `deltaZoom` to the goal log field of view
through `setFieldOfView`. -/
noncomputable def adjustOrbit (s : State) (deltaTheta deltaPhi deltaZoom : ℝ) : State :=
  let theta := s.goalSpherical.theta
  let phi := s.goalSpherical.phi
  let dTheta := s.spherical.theta - theta
  let dThetaLimit := Real.pi - 0.001
  let goalTheta := theta - clampR deltaTheta (-dThetaLimit - dTheta) (dThetaLimit - dTheta)
  let goalPhi := phi - deltaPhi
  let goalRadius := adjustOrbitGoalRadius s deltaZoom
  let s1 := (setOrbit s goalTheta goalPhi goalRadius).1
  if deltaZoom ≠ 0 then
    let goalLogFov := s1.goalLogFov + deltaZoom
    setFieldOfView s1 (Real.exp goalLogFov)
  else s1

/-- `userAdjustOrbit`: scales the angular deltas by the pointer sensitivity,
delegates to `adjustOrbit` and marks the change as user originated (the
unconditional change event it dispatches is a notification, not state). -/
noncomputable def userAdjustOrbit (s : State) (deltaTheta deltaPhi deltaZoom : ℝ) : State :=
  { adjustOrbit s (deltaTheta * s.sensitivity) (deltaPhi * s.sensitivity) deltaZoom with
      isUserChange := true }

/-- Modelled from the spec: the `Damper` class lives in `Damper.js`, which is
not under `src/`.  Spec section 4.1 describes a critically damped exponential
approach: with no further goal changes the value converges to the goal,
never overshoots, and a zero elapsed time is a no-op.  The model is the
exponential approach `goal + (x - goal) * exp(-t / decay)`; the
normalization-scale parameter of the source only calibrates the subjective
speed across axes and does not affect these properties, so it is omitted. -/
noncomputable def damperUpdate (x xGoal timeStepMillis decay : ℝ) : ℝ :=
  xGoal + (x - xGoal) * Real.exp (-(timeStepMillis / decay))

/-- `isStationary()`: the current state equals the goal state on all four
axes. -/
def isStationary (s : State) : Prop :=
  s.goalSpherical.theta = s.spherical.theta ∧
  s.goalSpherical.phi = s.spherical.phi ∧
  s.goalSpherical.radius = s.spherical.radius ∧
  s.goalLogFov = s.logFov

noncomputable instance (s : State) : Decidable (isStationary s) := by
  unfold isStationary
  infer_instance

/-- Modelled from the spec: the spherical-to-Cartesian conversion of three.js
`Vector3.setFromSpherical`, external to the repository; spec section 4.2
calls for the standard conversion around the origin. -/
noncomputable def sphericalToCartesian (sp : Spherical) : ℝ × ℝ × ℝ :=
  (sp.radius * Real.sin sp.phi * Real.sin sp.theta,
    sp.radius * Real.cos sp.phi,
    sp.radius * Real.sin sp.phi * Real.cos sp.theta)

/-- `moveCamera()`: applies the pole-safety clamp to the current spherical
state, derives the camera position and rotation from it, and writes the
current field of view (the source skips the write when the value is already
equal, which produces the same state).  The change event it dispatches is a
notification, not state. -/
noncomputable def moveCamera (s : State) : State :=
  let sph := makeSafe s.spherical
  { s with
      spherical := sph,
      camera :=
        { position := sphericalToCartesian sph,
          rotation := (sph.phi - Real.pi / 2, sph.theta, 0),
          fov := Real.exp s.logFov } }

/-- `update(time, delta)` of the source: a no-op when stationary; otherwise
applies the long-path azimuth correction (a `2 pi` shift of the current
azimuth when the difference to the goal exceeds `pi` and the azimuth is
unbounded), advances the four dampers, and moves the camera. -/
noncomputable def update (s : State) (_time delta : ℝ) : State :=
  if isStationary s then s
  else
    let dTheta := s.spherical.theta - s.goalSpherical.theta
    let s1 :=
      if Real.pi < |dTheta| ∧ azimuthUnbounded s.options = true then
        { s with spherical :=
          { s.spherical with theta := s.spherical.theta - Real.sign dTheta * (2 * Real.pi) } }
      else s
    let s2 :=
      { s1 with
          spherical :=
            { radius := damperUpdate s1.spherical.radius s1.goalSpherical.radius delta s1.decayTime,
              phi := damperUpdate s1.spherical.phi s1.goalSpherical.phi delta s1.decayTime,
              theta := damperUpdate s1.spherical.theta s1.goalSpherical.theta delta s1.decayTime },
          logFov := damperUpdate s1.logFov s1.goalLogFov delta s1.decayTime }
    moveCamera s2

/-- `jumpToGoal()`: one update over the settling time. -/
noncomputable def jumpToGoal (s : State) : State :=
  update s 0 SETTLING_TIME

/-- Partial option overrides accepted by `applyOptions` (each field is
independently settable; a `none` at the outer layer leaves the configured
value unchanged). -/
structure PartialOptions where
  minimumRadius : Option (Option ℝ) := Option.none
  maximumRadius : Option (Option ℝ) := Option.none
  minimumPolarAngle : Option (Option ℝ) := Option.none
  maximumPolarAngle : Option (Option ℝ) := Option.none
  minimumAzimuthalAngle : Option (Option ℝ) := Option.none
  maximumAzimuthalAngle : Option (Option ℝ) := Option.none
  minimumFieldOfView : Option ℝ := Option.none
  maximumFieldOfView : Option ℝ := Option.none
  interactionPolicy : Option InteractionPolicy := Option.none
  touchAction : Option TouchAction := Option.none

/-- `Object.assign(this._options, _options)`: field-wise override. -/
def mergeOptions (o : Options) (p : PartialOptions) : Options where
  minimumRadius := p.minimumRadius.getD o.minimumRadius
  maximumRadius := p.maximumRadius.getD o.maximumRadius
  minimumPolarAngle := p.minimumPolarAngle.getD o.minimumPolarAngle
  maximumPolarAngle := p.maximumPolarAngle.getD o.maximumPolarAngle
  minimumAzimuthalAngle := p.minimumAzimuthalAngle.getD o.minimumAzimuthalAngle
  maximumAzimuthalAngle := p.maximumAzimuthalAngle.getD o.maximumAzimuthalAngle
  minimumFieldOfView := p.minimumFieldOfView.getD o.minimumFieldOfView
  maximumFieldOfView := p.maximumFieldOfView.getD o.maximumFieldOfView
  interactionPolicy := p.interactionPolicy.getD o.interactionPolicy
  touchAction := p.touchAction.getD o.touchAction

/-- `applyOptions(_options)`: merges the overrides, then re-evaluates the
goal clamps through `setOrbit()` and `setFieldOfView(exp(goalLogFov))`. -/
noncomputable def applyOptions (s : State) (p : PartialOptions) : State :=
  let s1 := { s with options := mergeOptions s.options p }
  let s2 := (setOrbit s1).1
  setFieldOfView s2 (Real.exp s2.goalLogFov)

/-- `pixelLengthToSphericalAngle`: `2 pi * pixelLength / element.clientHeight`. -/
noncomputable def pixelLengthToSphericalAngle (s : State) (pixelLength : ℝ) : ℝ :=
  2 * Real.pi * pixelLength / s.element.clientHeight

/-- `twoTouchDistance`: Euclidean distance between two touch points. -/
noncomputable def twoTouchDistance (t1 t2 : Touch) : ℝ :=
  Real.sqrt ((t2.clientX - t1.clientX) ^ 2 + (t2.clientY - t1.clientY) ^ 2)

/-- `handleSinglePointerDown`: records the pointer position (the cursor style
write is presentation). -/
def handleSinglePointerDown (s : State) (clientX clientY : ℝ) : State :=
  { s with lastPointerPosition := { clientX := clientX, clientY := clientY } }

/-- `handleSinglePointerMove`: converts the pixel delta to angles, records
the position, raises the pointing flag (the pointer-change-start event is a
notification) and requests a user orbit adjustment. -/
noncomputable def handleSinglePointerMove (s : State) (clientX clientY : ℝ) : State :=
  let deltaTheta := pixelLengthToSphericalAngle s (clientX - s.lastPointerPosition.clientX)
  let deltaPhi := pixelLengthToSphericalAngle s (clientY - s.lastPointerPosition.clientY)
  let s1 := { s with
      lastPointerPosition := { clientX := clientX, clientY := clientY },
      isUserPointing := true }
  userAdjustOrbit s1 deltaTheta deltaPhi 0

/-- `onPointerMove` for a mouse event. -/
noncomputable def onPointerMoveMouse (s : State) (clientX clientY : ℝ) : State :=
  if !s.pointerIsDown || !canInteract s then s
  else handleSinglePointerMove s clientX clientY

/-- `onPointerMove` for a touch event: dispatches on the touch mode.  In
`zoom` mode a pinch delta is derived from the change of the two-touch
distance; in `rotate` mode the first qualifying movement decides the touch
intent once (reclassifying to `scroll` when the motion is predominantly
along the configured pass-through axis, in which case the handler returns
before updating `lastTouches`); in `scroll` mode the event is ignored. -/
noncomputable def onPointerMoveTouch (s : State) (touches : List Touch) : State :=
  if !s.pointerIsDown || !canInteract s then s
  else
    match s.touchMode with
    | TouchMode.zoom =>
        let s1 :=
          match s.lastTouches, touches with
          | l0 :: l1 :: _, t0 :: t1 :: _ =>
              userAdjustOrbit s 0 0
                (ZOOM_SENSITIVITY * (twoTouchDistance l0 l1 - twoTouchDistance t0 t1) / 10)
          | _, _ => s
        { s1 with lastTouches := touches }
    | TouchMode.rotate =>
        if s.touchDecided = false ∧ s.options.touchAction ≠ TouchAction.none then
          let s1 := { s with touchDecided := true }
          let t0 := touches.headD { clientX := 0, clientY := 0 }
          let dx := |t0.clientX - s.lastPointerPosition.clientX|
          let dy := |t0.clientY - s.lastPointerPosition.clientY|
          if (s.options.touchAction = TouchAction.panY ∧ dy > dx) ∨
              (s.options.touchAction = TouchAction.panX ∧ dx > dy) then
            { s1 with touchMode := TouchMode.scroll }
          else
            let t := touches.headD { clientX := 0, clientY := 0 }
            { handleSinglePointerMove s1 t.clientX t.clientY with lastTouches := touches }
        else
          let t := touches.headD { clientX := 0, clientY := 0 }
          { handleSinglePointerMove s t.clientX t.clientY with lastTouches := touches }
    | TouchMode.scroll => s

/-- `onPointerDown` for a mouse event. -/
def onPointerDownMouse (s : State) (clientX clientY : ℝ) : State :=
  handleSinglePointerDown
    { s with pointerIsDown := true, isUserPointing := false } clientX clientY

/-- `onPointerDown` for a touch event: resets the per-gesture intent decision
and selects the mode from the touch count (two touches select `zoom`, or
`scroll` when zooming is disabled; any other count selects `rotate`). -/
def onPointerDownTouch (s : State) (touches : List Touch) : State :=
  let s0 := { s with pointerIsDown := true, isUserPointing := false, touchDecided := false }
  let s1 :=
    match touches.length with
    | 2 => { s0 with touchMode := if s0.disableZoom then TouchMode.scroll else TouchMode.zoom }
    | _ =>
        let t := touches.headD { clientX := 0, clientY := 0 }
        handleSinglePointerDown { s0 with touchMode := TouchMode.rotate } t.clientX t.clientY
  { s1 with lastTouches := touches }

/-- `onPointerUp`: lowers the pointer flag (cursor style and the
pointer-change-end event are presentation and notification). -/
def onPointerUp (s : State) : State :=
  { s with pointerIsDown := false }

/-- `onWheel`: gated by `canInteract`; the vertical wheel delta (scaled by 18
in line mode) maps to a zoom delta. -/
noncomputable def onWheel (s : State) (deltaY : ℝ) (deltaMode : ℕ) : State :=
  if !canInteract s then s
  else
    userAdjustOrbit s 0 0
      (deltaY * (if deltaMode = 1 then (18 : ℝ) else 1) * ZOOM_SENSITIVITY / 30)

/-- `onKeyDown`: recognized key codes map to fixed-increment orbit and zoom
adjustments; others leave the state alone.  Note the source performs no
`canInteract` check in this handler. -/
noncomputable def onKeyDown (s : State) (keyCode : ℕ) : State :=
  if keyCode = 33 then userAdjustOrbit s 0 0 ZOOM_SENSITIVITY
  else if keyCode = 34 then userAdjustOrbit s 0 0 (-1 * ZOOM_SENSITIVITY)
  else if keyCode = 38 then userAdjustOrbit s 0 (-KEYBOARD_ORBIT_INCREMENT) 0
  else if keyCode = 40 then userAdjustOrbit s 0 KEYBOARD_ORBIT_INCREMENT 0
  else if keyCode = 37 then userAdjustOrbit s (-KEYBOARD_ORBIT_INCREMENT) 0 0
  else if keyCode = 39 then userAdjustOrbit s KEYBOARD_ORBIT_INCREMENT 0 0
  else s

/-- `enableInteraction`: attaches the DOM listeners (not modelled) and raises
the flag. -/
def enableInteraction (s : State) : State :=
  { s with interactionEnabled := true }

/-- `disableInteraction`: detaches the DOM listeners (not modelled) and
lowers the flag. -/
def disableInteraction (s : State) : State :=
  { s with interactionEnabled := false }

/-- The constructor: fresh three.js `Spherical` values (radius 1, phi 0,
theta 0), `logFov = log(DEFAULT_OPTIONS.maximumFieldOfView)`, then
`setOrbit(0, pi / 2, 1)`, `setFieldOfView(100)` and `jumpToGoal()`. -/
noncomputable def initialState (cam : Camera) (el : Element) : State :=
  let s0 : State :=
    { options := DEFAULT_OPTIONS
      camera := cam
      element := el
      sensitivity := 1
      interactionEnabled := false
      disableZoom := false
      isUserChange := false
      isUserPointing := false
      spherical := { radius := 1, phi := 0, theta := 0 }
      goalSpherical := { radius := 1, phi := 0, theta := 0 }
      logFov := Real.log DEFAULT_OPTIONS.maximumFieldOfView
      goalLogFov := Real.log DEFAULT_OPTIONS.maximumFieldOfView
      pointerIsDown := false
      lastPointerPosition := { clientX := 0, clientY := 0 }
      touchMode := TouchMode.rotate
      touchDecided := false
      lastTouches := []
      decayTime := 50 }
  let s1 := (setOrbit s0 0 (Real.pi / 2) 1).1
  let s2 := setFieldOfView s1 100
  jumpToGoal s2

/-- The public operations named by the spec, as an instruction alphabet for
invariant proofs over arbitrary call sequences. -/
inductive Op
  | setOrbit (a p r : ℝ)
  | adjustOrbit (dTheta dPhi dZoom : ℝ)
  | setRadius (r : ℝ)
  | setFieldOfView (fov : ℝ)
  | applyOptions (p : PartialOptions)
  | update (time delta : ℝ)

/-- Interpretation of one public operation on the controller state. -/
noncomputable def applyOp (s : State) : Op → State
  | Op.setOrbit a p r => (setOrbit s a p r).1
  | Op.adjustOrbit dTheta dPhi dZoom => adjustOrbit s dTheta dPhi dZoom
  | Op.setRadius r => setRadius s r
  | Op.setFieldOfView fov => setFieldOfView s fov
  | Op.applyOptions p => applyOptions s p
  | Op.update t d => update s t d

/-- Interpretation of a sequence of public operations. -/
noncomputable def applyOps (s : State) (ops : List Op) : State :=
  ops.foldl applyOp s

section SetOrbitLemmas

variable (s : State) (a p r : ℝ)

lemma setOrbit_options : ((setOrbit s a p r).1).options = s.options := by
  simp only [setOrbit]
  split_ifs <;> rfl

lemma setOrbit_goal_theta :
    ((setOrbit s a p r).1).goalSpherical.theta =
      clampOpt a s.options.minimumAzimuthalAngle s.options.maximumAzimuthalAngle := by
  simp only [setOrbit]
  split_ifs <;> simp_all [makeSafe]

lemma setOrbit_current_phi : ((setOrbit s a p r).1).spherical.phi = s.spherical.phi := by
  simp only [setOrbit]
  split_ifs <;> rfl

lemma setOrbit_current_radius :
    ((setOrbit s a p r).1).spherical.radius = s.spherical.radius := by
  simp only [setOrbit]
  split_ifs <;> rfl

lemma setOrbit_logFov : ((setOrbit s a p r).1).logFov = s.logFov := by
  simp only [setOrbit]
  split_ifs <;> rfl

lemma setOrbit_goalLogFov : ((setOrbit s a p r).1).goalLogFov = s.goalLogFov := by
  simp only [setOrbit]
  split_ifs <;> rfl

lemma setOrbit_current_theta_unbounded (h : azimuthUnbounded s.options = true) :
    ((setOrbit s a p r).1).spherical.theta =
      wrapAngle (s.spherical.theta -
          clampOpt a s.options.minimumAzimuthalAngle s.options.maximumAzimuthalAngle) +
        clampOpt a s.options.minimumAzimuthalAngle s.options.maximumAzimuthalAngle := by
  simp only [setOrbit]
  split_ifs <;> simp_all

lemma setOrbit_current_theta_bounded (h : ¬ azimuthUnbounded s.options = true) :
    ((setOrbit s a p r).1).spherical.theta = s.spherical.theta := by
  simp only [setOrbit]
  split_ifs <;> simp_all

end SetOrbitLemmas

lemma clampR_ge_lo (v lo hi : ℝ) : lo ≤ clampR v lo hi := le_max_left _ _

lemma clampR_le_hi {v lo hi : ℝ} (h : lo ≤ hi) : clampR v lo hi ≤ hi :=
  max_le h (min_le_left _ _)

lemma clampR_of_ge {v lo hi : ℝ} (h : lo ≤ hi) (hv : hi ≤ v) : clampR v lo hi = hi := by
  rw [clampR, min_eq_left hv, max_eq_right h]

lemma clampOpt_none_none (v : ℝ) : clampOpt v Option.none Option.none = v := rfl

/-- A concrete camera used by the concrete controller states below. -/
def baseCamera : Camera :=
  { position := (0, 0, 0), rotation := (0, 0, 0), fov := 45 }

/-- A concrete focused input surface of height 100 pixels. -/
def baseElement : Element :=
  { clientHeight := 100, focused := true }

/-- A concrete settled controller state under the default options: current
and goal orbit `(radius 1, phi pi / 2, theta 0)` and the field of view at the
default maximum of 45 degrees. -/
noncomputable def baseState : State where
  options := DEFAULT_OPTIONS
  camera := baseCamera
  element := baseElement
  sensitivity := 1
  interactionEnabled := true
  disableZoom := false
  isUserChange := false
  isUserPointing := false
  spherical := { radius := 1, phi := Real.pi / 2, theta := 0 }
  goalSpherical := { radius := 1, phi := Real.pi / 2, theta := 0 }
  logFov := Real.log 45
  goalLogFov := Real.log 45
  pointerIsDown := false
  lastPointerPosition := { clientX := 0, clientY := 0 }
  touchMode := TouchMode.rotate
  touchDecided := false
  lastTouches := []
  decayTime := 50

lemma adjustOrbit_goalSpherical_eq (s : State) (dTheta dPhi dZoom : ℝ) :
    (adjustOrbit s dTheta dPhi dZoom).goalSpherical =
      ((setOrbit s
          (s.goalSpherical.theta -
            clampR dTheta
              (-(Real.pi - 0.001) - (s.spherical.theta - s.goalSpherical.theta))
              ((Real.pi - 0.001) - (s.spherical.theta - s.goalSpherical.theta)))
          (s.goalSpherical.phi - dPhi)
          (adjustOrbitGoalRadius s dZoom)).1).goalSpherical := by
  rw [adjustOrbit]
  split_ifs with h
  · rw [setFieldOfView]
  · rfl

lemma adjustOrbit_spherical_eq (s : State) (dTheta dPhi dZoom : ℝ) :
    (adjustOrbit s dTheta dPhi dZoom).spherical =
      ((setOrbit s
          (s.goalSpherical.theta -
            clampR dTheta
              (-(Real.pi - 0.001) - (s.spherical.theta - s.goalSpherical.theta))
              ((Real.pi - 0.001) - (s.spherical.theta - s.goalSpherical.theta)))
          (s.goalSpherical.phi - dPhi)
          (adjustOrbitGoalRadius s dZoom)).1).spherical := by
  rw [adjustOrbit]
  split_ifs with h
  · rw [setFieldOfView]
  · rfl

/-- C10.  With both azimuth bounds infinite, `setOrbit` rewrites the current
(interpolating) azimuth only by an exact integer multiple of `2 pi` that
brings it within `pi` of the new goal azimuth, and modifies no other
component of the current state (current polar angle, current radius, current
log field of view). -/
theorem setOrbit_current_azimuth_whole_turns (s : State) (a p r : ℝ)
    (hmin : s.options.minimumAzimuthalAngle = Option.none)
    (hmax : s.options.maximumAzimuthalAngle = Option.none) :
    (∃ k : ℤ, ((setOrbit s a p r).1).spherical.theta =
        s.spherical.theta + 2 * Real.pi * k) ∧
    |((setOrbit s a p r).1).spherical.theta -
        ((setOrbit s a p r).1).goalSpherical.theta| ≤ Real.pi ∧
    ((setOrbit s a p r).1).spherical.phi = s.spherical.phi ∧
    ((setOrbit s a p r).1).spherical.radius = s.spherical.radius ∧
    ((setOrbit s a p r).1).logFov = s.logFov := by
  have hub : azimuthUnbounded s.options = true := by
    simp [azimuthUnbounded, hmin, hmax]
  have hc : clampOpt a s.options.minimumAzimuthalAngle s.options.maximumAzimuthalAngle = a := by
    rw [hmin, hmax, clampOpt_none_none]
  have hcur := setOrbit_current_theta_unbounded s a p r hub
  have hgoal := setOrbit_goal_theta s a p r
  rw [hc] at hcur hgoal
  refine ⟨?_, ?_, setOrbit_current_phi s a p r, setOrbit_current_radius s a p r,
    setOrbit_logFov s a p r⟩
  · obtain ⟨k, hk⟩ := wrapAngle_congruent (s.spherical.theta - a)
    exact ⟨k, by rw [hcur, hk]; ring⟩
  · rw [hcur, hgoal]
    have := wrapAngle_abs_le (s.spherical.theta - a)
    calc |wrapAngle (s.spherical.theta - a) + a - a|
        = |wrapAngle (s.spherical.theta - a)| := by ring_nf
      _ ≤ Real.pi := this

/-- C10, witness: the theorem applied to the concrete settled default state
with the arguments of the constructor call `setOrbit(0, pi / 2, 1)`. -/
theorem setOrbit_current_azimuth_whole_turns_witness :
    baseState.options.minimumAzimuthalAngle = Option.none ∧
    baseState.options.maximumAzimuthalAngle = Option.none ∧
    ((∃ k : ℤ, ((setOrbit baseState 0 (Real.pi / 2) 1).1).spherical.theta =
        baseState.spherical.theta + 2 * Real.pi * k) ∧
    |((setOrbit baseState 0 (Real.pi / 2) 1).1).spherical.theta -
        ((setOrbit baseState 0 (Real.pi / 2) 1).1).goalSpherical.theta| ≤ Real.pi ∧
    ((setOrbit baseState 0 (Real.pi / 2) 1).1).spherical.phi = baseState.spherical.phi ∧
    ((setOrbit baseState 0 (Real.pi / 2) 1).1).spherical.radius = baseState.spherical.radius ∧
    ((setOrbit baseState 0 (Real.pi / 2) 1).1).logFov = baseState.logFov) :=
  ⟨rfl, rfl, setOrbit_current_azimuth_whole_turns baseState 0 (Real.pi / 2) 1 rfl rfl⟩

/-- C1, counterexample.  The claim states that a large positive azimuth delta
keeps the goal azimuth ahead of (above) the current azimuth, capped at
`current + pi - epsilon`; on the settled default state, `adjustOrbit(10, 0, 0)`
instead moves the goal azimuth to `-(pi - 0.001)`, strictly below the current
azimuth `0` (a positive azimuth delta decreases the goal azimuth). -/
theorem adjustOrbit_positive_delta_moves_goal_below_current :
    (adjustOrbit baseState 10 0 0).goalSpherical.theta = -(Real.pi - 0.001) ∧
    (adjustOrbit baseState 10 0 0).goalSpherical.theta < baseState.spherical.theta := by
  have hth : (adjustOrbit baseState 10 0 0).goalSpherical.theta = -(Real.pi - 0.001) := by
    rw [adjustOrbit_goalSpherical_eq, setOrbit_goal_theta]
    have h1 : baseState.goalSpherical.theta = 0 := rfl
    have h2 : baseState.spherical.theta = 0 := rfl
    have h3 : baseState.options.minimumAzimuthalAngle = Option.none := rfl
    have h4 : baseState.options.maximumAzimuthalAngle = Option.none := rfl
    rw [h1, h2, h3, h4, clampOpt_none_none]
    have hpi4 := Real.pi_le_four
    have hpi3 := Real.pi_gt_three
    have hcl : clampR 10 (-(Real.pi - 0.001) - (0 - 0)) ((Real.pi - 0.001) - (0 - 0)) =
        (Real.pi - 0.001) - (0 - 0) :=
      clampR_of_ge (by linarith) (by linarith)
    rw [hcl]
    ring
  refine ⟨hth, ?_⟩
  rw [hth]
  have h2 : baseState.spherical.theta = 0 := rfl
  rw [h2]
  have := Real.pi_gt_three
  linarith

/-- C1, amended.  With the azimuth unbounded, `adjustOrbit` clamps the
azimuth delta so the new goal azimuth stays within `pi - 0.001` of the
current azimuth (which it leaves unchanged), and a large positive azimuth
delta pins the goal azimuth exactly `pi - 0.001` BELOW the current azimuth
(a positive delta moves the goal in the negative azimuth direction). -/
theorem adjustOrbit_goal_azimuth_within_pi_of_current
    (s : State) (dTheta dPhi dZoom : ℝ)
    (hmin : s.options.minimumAzimuthalAngle = Option.none)
    (hmax : s.options.maximumAzimuthalAngle = Option.none) :
    |(adjustOrbit s dTheta dPhi dZoom).goalSpherical.theta -
        (adjustOrbit s dTheta dPhi dZoom).spherical.theta| ≤ Real.pi - 0.001 ∧
    (adjustOrbit s dTheta dPhi dZoom).spherical.theta = s.spherical.theta ∧
    ((Real.pi - 0.001) - (s.spherical.theta - s.goalSpherical.theta) ≤ dTheta →
      (adjustOrbit s dTheta dPhi dZoom).goalSpherical.theta =
        s.spherical.theta - (Real.pi - 0.001)) := by
  have hub : azimuthUnbounded s.options = true := by
    simp [azimuthUnbounded, hmin, hmax]
  have hpi3 := Real.pi_gt_three
  set L : ℝ := Real.pi - 0.001 with hL
  have hL0 : 0 < L := by rw [hL]; linarith
  have hLpi : L < Real.pi := by rw [hL]; linarith
  set dTh : ℝ := s.spherical.theta - s.goalSpherical.theta with hdTh
  set c : ℝ := clampR dTheta (-L - dTh) (L - dTh) with hcdef
  have hlohi : -L - dTh ≤ L - dTh := by linarith
  have hclo : -L - dTh ≤ c := clampR_ge_lo _ _ _
  have hchi : c ≤ L - dTh := clampR_le_hi hlohi
  have hgoal : (adjustOrbit s dTheta dPhi dZoom).goalSpherical.theta =
      s.goalSpherical.theta - c := by
    rw [adjustOrbit_goalSpherical_eq, setOrbit_goal_theta, hmin, hmax, clampOpt_none_none]
  have hwrap : wrapAngle (s.spherical.theta - (s.goalSpherical.theta - c)) =
      s.spherical.theta - (s.goalSpherical.theta - c) := by
    apply wrapAngle_eq_self
    · have : -(Real.pi) ≤ -L := by linarith
      have h1 : s.spherical.theta - (s.goalSpherical.theta - c) = dTh + c := by
        rw [hdTh]; ring
      rw [h1]; linarith
    · have h1 : s.spherical.theta - (s.goalSpherical.theta - c) = dTh + c := by
        rw [hdTh]; ring
      rw [h1]; linarith
  have hcur : (adjustOrbit s dTheta dPhi dZoom).spherical.theta = s.spherical.theta := by
    rw [adjustOrbit_spherical_eq]
    rw [setOrbit_current_theta_unbounded _ _ _ _ hub, hmin, hmax, clampOpt_none_none]
    rw [hwrap]
    ring
  refine ⟨?_, hcur, ?_⟩
  · rw [hgoal, hcur]
    rw [abs_le]
    constructor
    · have h1 : s.goalSpherical.theta - c - s.spherical.theta = -(dTh + c) := by
        rw [hdTh]; ring
      rw [h1]; linarith
    · have h1 : s.goalSpherical.theta - c - s.spherical.theta = -(dTh + c) := by
        rw [hdTh]; ring
      rw [h1]; linarith
  · intro hbig
    have hceq : c = L - dTh := clampR_of_ge hlohi hbig
    rw [hgoal, hceq, hdTh]
    ring

/-- C1, witness for the amended theorem: on the settled default state with
azimuth delta 10, the cap hypothesis holds and the goal azimuth lands exactly
`pi - 0.001` below the current azimuth. -/
theorem adjustOrbit_goal_azimuth_within_pi_of_current_witness :
    baseState.options.minimumAzimuthalAngle = Option.none ∧
    baseState.options.maximumAzimuthalAngle = Option.none ∧
    (Real.pi - 0.001) - (baseState.spherical.theta - baseState.goalSpherical.theta) ≤ 10 ∧
    (adjustOrbit baseState 10 0 0).goalSpherical.theta =
      baseState.spherical.theta - (Real.pi - 0.001) := by
  have hyp : (Real.pi - 0.001) - (baseState.spherical.theta - baseState.goalSpherical.theta)
      ≤ 10 := by
    have h1 : baseState.spherical.theta = 0 := rfl
    have h2 : baseState.goalSpherical.theta = 0 := rfl
    rw [h1, h2]
    have := Real.pi_le_four
    linarith
  exact ⟨rfl, rfl, hyp,
    (adjustOrbit_goal_azimuth_within_pi_of_current baseState 10 0 0 rfl rfl).2.2 hyp⟩

lemma clampOpt_some_some (v a b : ℝ) : clampOpt v (some a) (some b) = max a (min b v) := rfl

lemma clampOpt_some_none (v a : ℝ) : clampOpt v (some a) Option.none = max a v := rfl

lemma setOrbit_unchanged (s : State) (a p r : ℝ)
    (h : clampOpt a s.options.minimumAzimuthalAngle s.options.maximumAzimuthalAngle =
          s.goalSpherical.theta ∧
        clampOpt p s.options.minimumPolarAngle s.options.maximumPolarAngle =
          s.goalSpherical.phi ∧
        clampOpt r s.options.minimumRadius s.options.maximumRadius =
          s.goalSpherical.radius) :
    ((setOrbit s a p r).1).goalSpherical = s.goalSpherical ∧ (setOrbit s a p r).2 = false := by
  simp only [setOrbit]
  split_ifs <;> simp_all

lemma setOrbit_goalSpherical_changed (s : State) (a p r : ℝ)
    (h : ¬ (clampOpt a s.options.minimumAzimuthalAngle s.options.maximumAzimuthalAngle =
          s.goalSpherical.theta ∧
        clampOpt p s.options.minimumPolarAngle s.options.maximumPolarAngle =
          s.goalSpherical.phi ∧
        clampOpt r s.options.minimumRadius s.options.maximumRadius =
          s.goalSpherical.radius)) :
    ((setOrbit s a p r).1).goalSpherical =
      makeSafe
        { radius := clampOpt r s.options.minimumRadius s.options.maximumRadius,
          phi := clampOpt p s.options.minimumPolarAngle s.options.maximumPolarAngle,
          theta := clampOpt a s.options.minimumAzimuthalAngle s.options.maximumAzimuthalAngle } ∧
      (setOrbit s a p r).2 = true := by
  simp only [setOrbit]
  split_ifs <;> simp_all

/-- A concrete configuration whose polar minimum is 0, a legal configuration
(`min <= max` on every axis) on which the pole-safety clamp disturbs the
clamped polar goal. -/
noncomputable def minPolarZeroOptions : Options :=
  { DEFAULT_OPTIONS with minimumPolarAngle := some 0 }

/-- The settled default state reconfigured with `minimumPolarAngle = 0`. -/
noncomputable def minPolarZeroState : State :=
  { baseState with options := minPolarZeroOptions }

/-- C4, counterexample.  The claim states that repeating the same `setOrbit`
call is a no-op returning `false`, and that `setOrbit` returns `true` exactly
when some goal component changed.  With the legal configuration
`minimumPolarAngle = 0`, the call `setOrbit(0, 0, 1)` clamps the polar goal
to 0, which the pole-safety clamp then lifts to the epsilon band; the
identical second call therefore sees `0 != epsilon`, returns `true` again,
and changes no goal component. -/
theorem setOrbit_repeat_returns_true :
    (setOrbit ((setOrbit minPolarZeroState 0 0 1).1) 0 0 1).2 = true ∧
    ((setOrbit ((setOrbit minPolarZeroState 0 0 1).1) 0 0 1).1).goalSpherical =
      ((setOrbit minPolarZeroState 0 0 1).1).goalSpherical := by
  have hpi3 := Real.pi_gt_three
  have hπ8 : (0 : ℝ) ≤ Real.pi - Real.pi / 8 := by linarith
  have heps : (0 : ℝ) ≤ makeSafeEps := by rw [makeSafeEps]; norm_num
  have hepspi : makeSafeEps ≤ Real.pi - makeSafeEps := by rw [makeSafeEps]; linarith
  -- the clamped argument values under this configuration
  have hclθ : clampOpt 0 minPolarZeroState.options.minimumAzimuthalAngle
      minPolarZeroState.options.maximumAzimuthalAngle = 0 := rfl
  have hclφ : clampOpt 0 minPolarZeroState.options.minimumPolarAngle
      minPolarZeroState.options.maximumPolarAngle = 0 := by
    show clampOpt 0 (some 0) (some (Real.pi - Real.pi / 8)) = 0
    rw [clampOpt_some_some, min_eq_right hπ8, max_self]
  have hclr : clampOpt 1 minPolarZeroState.options.minimumRadius
      minPolarZeroState.options.maximumRadius = 1 := by
    show clampOpt 1 (some 0) Option.none = 1
    rw [clampOpt_some_none, max_eq_right (by norm_num : (0:ℝ) ≤ 1)]
  -- the first call changes the goal (the polar goal moves from pi / 2 to 0)
  have hch1 : ¬ (clampOpt 0 minPolarZeroState.options.minimumAzimuthalAngle
        minPolarZeroState.options.maximumAzimuthalAngle =
          minPolarZeroState.goalSpherical.theta ∧
      clampOpt 0 minPolarZeroState.options.minimumPolarAngle
        minPolarZeroState.options.maximumPolarAngle =
          minPolarZeroState.goalSpherical.phi ∧
      clampOpt 1 minPolarZeroState.options.minimumRadius
        minPolarZeroState.options.maximumRadius =
          minPolarZeroState.goalSpherical.radius) := by
    intro h
    have hphi : minPolarZeroState.goalSpherical.phi = Real.pi / 2 := rfl
    rw [hclφ, hphi] at h
    have := h.2.1
    linarith
  obtain ⟨hgoal1, -⟩ := setOrbit_goalSpherical_changed minPolarZeroState 0 0 1 hch1
  rw [hclθ, hclφ, hclr] at hgoal1
  have hsafe : makeSafe { radius := (1 : ℝ), phi := 0, theta := 0 } =
      { radius := (1 : ℝ), phi := makeSafeEps, theta := 0 } := by
    rw [makeSafe]
    have h1 : min (Real.pi - makeSafeEps) (0 : ℝ) = 0 :=
      min_eq_right (by rw [makeSafeEps]; linarith)
    simp [h1, max_eq_left heps]
  rw [hsafe] at hgoal1
  -- the second identical call still sees the polar clamp 0 differ from epsilon
  set s1 := (setOrbit minPolarZeroState 0 0 1).1 with hs1
  have hopt : s1.options = minPolarZeroState.options := setOrbit_options _ _ _ _
  have hch2 : ¬ (clampOpt 0 s1.options.minimumAzimuthalAngle
        s1.options.maximumAzimuthalAngle = s1.goalSpherical.theta ∧
      clampOpt 0 s1.options.minimumPolarAngle
        s1.options.maximumPolarAngle = s1.goalSpherical.phi ∧
      clampOpt 1 s1.options.minimumRadius
        s1.options.maximumRadius = s1.goalSpherical.radius) := by
    intro h
    have h2 := h.2.1
    rw [hopt, hclφ, hgoal1] at h2
    have : makeSafeEps = (0 : ℝ) := h2.symm
    rw [makeSafeEps] at this
    norm_num at this
  obtain ⟨hgoal2, hsnd2⟩ := setOrbit_goalSpherical_changed s1 0 0 1 hch2
  refine ⟨hsnd2, ?_⟩
  rw [hgoal2, hopt, hclθ, hclφ, hclr, hsafe, hgoal1]

/-- C4, amended.  Whenever the clamped polar argument already lies inside the
pole-safety band (in particular under the default options), `setOrbit`
followed by the identical `setOrbit` call is a no-op: the second call returns
`false` and leaves every goal component unchanged. -/
theorem setOrbit_repeat_noop_of_safe_polar (s : State) (a p r : ℝ)
    (h1 : makeSafeEps ≤ clampOpt p s.options.minimumPolarAngle s.options.maximumPolarAngle)
    (h2 : clampOpt p s.options.minimumPolarAngle s.options.maximumPolarAngle ≤
      Real.pi - makeSafeEps) :
    (setOrbit ((setOrbit s a p r).1) a p r).2 = false ∧
    ((setOrbit ((setOrbit s a p r).1) a p r).1).goalSpherical =
      ((setOrbit s a p r).1).goalSpherical := by
  have hopt : ((setOrbit s a p r).1).options = s.options := setOrbit_options _ _ _ _
  by_cases hch : (clampOpt a s.options.minimumAzimuthalAngle
        s.options.maximumAzimuthalAngle = s.goalSpherical.theta ∧
      clampOpt p s.options.minimumPolarAngle
        s.options.maximumPolarAngle = s.goalSpherical.phi ∧
      clampOpt r s.options.minimumRadius
        s.options.maximumRadius = s.goalSpherical.radius)
  · obtain ⟨hgoal1, -⟩ := setOrbit_unchanged s a p r hch
    have hch2 : (clampOpt a ((setOrbit s a p r).1).options.minimumAzimuthalAngle
          ((setOrbit s a p r).1).options.maximumAzimuthalAngle =
            ((setOrbit s a p r).1).goalSpherical.theta ∧
        clampOpt p ((setOrbit s a p r).1).options.minimumPolarAngle
          ((setOrbit s a p r).1).options.maximumPolarAngle =
            ((setOrbit s a p r).1).goalSpherical.phi ∧
        clampOpt r ((setOrbit s a p r).1).options.minimumRadius
          ((setOrbit s a p r).1).options.maximumRadius =
            ((setOrbit s a p r).1).goalSpherical.radius) := by
      rw [hopt, hgoal1]
      exact hch
    obtain ⟨hgoal2, hsnd2⟩ := setOrbit_unchanged _ a p r hch2
    exact ⟨hsnd2, hgoal2⟩
  · obtain ⟨hgoal1, -⟩ := setOrbit_goalSpherical_changed s a p r hch
    have hsafe : makeSafe
        { radius := clampOpt r s.options.minimumRadius s.options.maximumRadius,
          phi := clampOpt p s.options.minimumPolarAngle s.options.maximumPolarAngle,
          theta := clampOpt a s.options.minimumAzimuthalAngle
            s.options.maximumAzimuthalAngle } =
        { radius := clampOpt r s.options.minimumRadius s.options.maximumRadius,
          phi := clampOpt p s.options.minimumPolarAngle s.options.maximumPolarAngle,
          theta := clampOpt a s.options.minimumAzimuthalAngle
            s.options.maximumAzimuthalAngle } := by
      rw [makeSafe, min_eq_right h2, max_eq_right h1]
    rw [hsafe] at hgoal1
    have hch2 : (clampOpt a ((setOrbit s a p r).1).options.minimumAzimuthalAngle
          ((setOrbit s a p r).1).options.maximumAzimuthalAngle =
            ((setOrbit s a p r).1).goalSpherical.theta ∧
        clampOpt p ((setOrbit s a p r).1).options.minimumPolarAngle
          ((setOrbit s a p r).1).options.maximumPolarAngle =
            ((setOrbit s a p r).1).goalSpherical.phi ∧
        clampOpt r ((setOrbit s a p r).1).options.minimumRadius
          ((setOrbit s a p r).1).options.maximumRadius =
            ((setOrbit s a p r).1).goalSpherical.radius) := by
      rw [hopt, hgoal1]
      exact ⟨rfl, rfl, rfl⟩
    obtain ⟨hgoal2, hsnd2⟩ := setOrbit_unchanged _ a p r hch2
    exact ⟨hsnd2, hgoal2⟩

/-- C4, witness for the amended theorem: under the default options the
constructor arguments `(0, pi / 2, 1)` clamp into the safe band, so the
repeated call is a no-op. -/
theorem setOrbit_repeat_noop_of_safe_polar_witness :
    makeSafeEps ≤ clampOpt (Real.pi / 2) baseState.options.minimumPolarAngle
      baseState.options.maximumPolarAngle ∧
    clampOpt (Real.pi / 2) baseState.options.minimumPolarAngle
      baseState.options.maximumPolarAngle ≤ Real.pi - makeSafeEps ∧
    (setOrbit ((setOrbit baseState 0 (Real.pi / 2) 1).1) 0 (Real.pi / 2) 1).2 = false ∧
    ((setOrbit ((setOrbit baseState 0 (Real.pi / 2) 1).1) 0 (Real.pi / 2) 1).1).goalSpherical =
      ((setOrbit baseState 0 (Real.pi / 2) 1).1).goalSpherical := by
  have hpi3 := Real.pi_gt_three
  have hcl : clampOpt (Real.pi / 2) baseState.options.minimumPolarAngle
      baseState.options.maximumPolarAngle = Real.pi / 2 := by
    show clampOpt (Real.pi / 2) (some (Real.pi / 8)) (some (Real.pi - Real.pi / 8)) =
      Real.pi / 2
    rw [clampOpt_some_some, min_eq_right (by linarith), max_eq_right (by linarith)]
  have h1 : makeSafeEps ≤ clampOpt (Real.pi / 2) baseState.options.minimumPolarAngle
      baseState.options.maximumPolarAngle := by
    rw [hcl, makeSafeEps]; linarith
  have h2 : clampOpt (Real.pi / 2) baseState.options.minimumPolarAngle
      baseState.options.maximumPolarAngle ≤ Real.pi - makeSafeEps := by
    rw [hcl, makeSafeEps]; linarith
  exact ⟨h1, h2,
    (setOrbit_repeat_noop_of_safe_polar baseState 0 (Real.pi / 2) 1 h1 h2).1,
    (setOrbit_repeat_noop_of_safe_polar baseState 0 (Real.pi / 2) 1 h1 h2).2⟩

/-- The settled default state under the `allow-when-focused` policy with the
input surface unfocused, so that `canInteract` is `false`. -/
noncomputable def unfocusedState : State :=
  { baseState with
      options := { DEFAULT_OPTIONS with
        interactionPolicy := InteractionPolicy.allowWhenFocused },
      element := { clientHeight := 100, focused := false } }

lemma userAdjustOrbit_goalSpherical (s : State) (dTheta dPhi dZoom : ℝ) :
    (userAdjustOrbit s dTheta dPhi dZoom).goalSpherical =
      (adjustOrbit s (dTheta * s.sensitivity) (dPhi * s.sensitivity) dZoom).goalSpherical := rfl

/-- C3, counterexample.  The claim states that every input event class
(including keyboard) produces zero state change when `canInteract` is false;
but `onKeyDown` performs no `canInteract` check, so a left-arrow key event on
an unfocused focus-gated surface still moves the goal azimuth (from 0 to
`pi / 8`). -/
theorem onKeyDown_changes_state_when_not_interactable :
    canInteract unfocusedState = false ∧
    (onKeyDown unfocusedState 37).goalSpherical.theta ≠
      unfocusedState.goalSpherical.theta := by
  have hpi3 := Real.pi_gt_three
  have hpi4 := Real.pi_le_four
  refine ⟨rfl, ?_⟩
  have hkey : onKeyDown unfocusedState 37 =
      userAdjustOrbit unfocusedState (-KEYBOARD_ORBIT_INCREMENT) 0 0 := by
    rw [onKeyDown]
    norm_num
  rw [hkey, userAdjustOrbit_goalSpherical]
  have hsens : unfocusedState.sensitivity = 1 := rfl
  rw [hsens]
  rw [adjustOrbit_goalSpherical_eq, setOrbit_goal_theta]
  have h3 : unfocusedState.options.minimumAzimuthalAngle = Option.none := rfl
  have h4 : unfocusedState.options.maximumAzimuthalAngle = Option.none := rfl
  have h1 : unfocusedState.goalSpherical.theta = 0 := rfl
  have h2 : unfocusedState.spherical.theta = 0 := rfl
  rw [h1, h2, h3, h4, clampOpt_none_none]
  have hcl : clampR (-KEYBOARD_ORBIT_INCREMENT * 1)
      (-(Real.pi - 0.001) - (0 - 0)) ((Real.pi - 0.001) - (0 - 0)) =
      -KEYBOARD_ORBIT_INCREMENT * 1 := by
    rw [clampR, KEYBOARD_ORBIT_INCREMENT]
    rw [min_eq_right (by linarith), max_eq_right (by linarith)]
  rw [hcl, KEYBOARD_ORBIT_INCREMENT]
  intro hcontra
  have : Real.pi / 8 = 0 := by linarith
  linarith

/-- C3, amended.  When `canInteract` is false, pointer-move (mouse and
touch) and wheel events leave the entire state unchanged, and pointer-down
and pointer-up events (which only record gesture bookkeeping and are not
gated) never modify the orbital or field-of-view state; keyboard events are
NOT gated by `canInteract` in the source (the DOM only delivers key events to
a focused element, making the gate implicit there). -/
theorem ungated_events_zero_orbital_change (s : State) (x y dy : ℝ)
    (touches : List Touch) (m : ℕ) (h : canInteract s = false) :
    onPointerMoveMouse s x y = s ∧
    onPointerMoveTouch s touches = s ∧
    onWheel s dy m = s ∧
    (onPointerDownMouse s x y).spherical = s.spherical ∧
    (onPointerDownMouse s x y).goalSpherical = s.goalSpherical ∧
    (onPointerDownMouse s x y).logFov = s.logFov ∧
    (onPointerDownMouse s x y).goalLogFov = s.goalLogFov ∧
    (onPointerDownTouch s touches).spherical = s.spherical ∧
    (onPointerDownTouch s touches).goalSpherical = s.goalSpherical ∧
    (onPointerDownTouch s touches).logFov = s.logFov ∧
    (onPointerDownTouch s touches).goalLogFov = s.goalLogFov ∧
    (onPointerUp s).spherical = s.spherical ∧
    (onPointerUp s).goalSpherical = s.goalSpherical ∧
    (onPointerUp s).logFov = s.logFov ∧
    (onPointerUp s).goalLogFov = s.goalLogFov := by
  have hc : (!s.pointerIsDown || !canInteract s) = true := by
    rw [h]
    simp
  have hw : (!canInteract s) = true := by
    rw [h]
    simp
  refine ⟨?_, ?_, ?_, ?_, ?_, ?_, ?_, ?_, ?_, ?_, ?_, rfl, rfl, rfl, rfl⟩
  · rw [onPointerMoveMouse, if_pos hc]
  · unfold onPointerMoveTouch
    rw [if_pos hc]
  · rw [onWheel, if_pos hw]
  · rfl
  · rfl
  · rfl
  · rfl
  all_goals
    simp only [onPointerDownTouch, handleSinglePointerDown]
    split <;> rfl

/-- C3, witness for the amended theorem, at the unfocused focus-gated state
with concrete event payloads. -/
theorem ungated_events_zero_orbital_change_witness :
    canInteract unfocusedState = false ∧
    onPointerMoveMouse unfocusedState 5 7 = unfocusedState ∧
    onPointerMoveTouch unfocusedState [] = unfocusedState ∧
    onWheel unfocusedState 3 0 = unfocusedState :=
  ⟨rfl,
    (ungated_events_zero_orbital_change unfocusedState 5 7 3 [] 0 rfl).1,
    (ungated_events_zero_orbital_change unfocusedState 5 7 3 [] 0 rfl).2.1,
    (ungated_events_zero_orbital_change unfocusedState 5 7 3 [] 0 rfl).2.2.1⟩

section TouchModeLemmas

variable (s : State)

lemma setOrbit_touchMode (a p r : ℝ) : ((setOrbit s a p r).1).touchMode = s.touchMode := by
  simp only [setOrbit]
  split_ifs <;> rfl

lemma setOrbit_touchDecided (a p r : ℝ) :
    ((setOrbit s a p r).1).touchDecided = s.touchDecided := by
  simp only [setOrbit]
  split_ifs <;> rfl

lemma adjustOrbit_touchMode (dTheta dPhi dZoom : ℝ) :
    (adjustOrbit s dTheta dPhi dZoom).touchMode = s.touchMode := by
  simp only [adjustOrbit]
  split_ifs <;> simp [setFieldOfView, setOrbit_touchMode]

lemma adjustOrbit_touchDecided (dTheta dPhi dZoom : ℝ) :
    (adjustOrbit s dTheta dPhi dZoom).touchDecided = s.touchDecided := by
  simp only [adjustOrbit]
  split_ifs <;> simp [setFieldOfView, setOrbit_touchDecided]

lemma userAdjustOrbit_touchMode (dTheta dPhi dZoom : ℝ) :
    (userAdjustOrbit s dTheta dPhi dZoom).touchMode = s.touchMode := by
  simp [userAdjustOrbit, adjustOrbit_touchMode]

lemma userAdjustOrbit_touchDecided (dTheta dPhi dZoom : ℝ) :
    (userAdjustOrbit s dTheta dPhi dZoom).touchDecided = s.touchDecided := by
  simp [userAdjustOrbit, adjustOrbit_touchDecided]

lemma handleSinglePointerMove_touchMode (x y : ℝ) :
    (handleSinglePointerMove s x y).touchMode = s.touchMode := by
  simp [handleSinglePointerMove, userAdjustOrbit_touchMode]

lemma handleSinglePointerMove_touchDecided (x y : ℝ) :
    (handleSinglePointerMove s x y).touchDecided = s.touchDecided := by
  simp [handleSinglePointerMove, userAdjustOrbit_touchDecided]

/-- When the gesture is already classified as scroll, a touch move is a
complete no-op (the handler returns before touching any state). -/
lemma onPointerMoveTouch_scroll (touches : List Touch)
    (hm : s.touchMode = TouchMode.scroll) :
    onPointerMoveTouch s touches = s := by
  unfold onPointerMoveTouch
  by_cases hg : (!s.pointerIsDown || !canInteract s) = true
  · rw [if_pos hg]
  · rw [if_neg hg, hm]

/-- A touch move either preserves the touch mode, or performs the one
classification step: it happens only when the intent was still undecided,
marks it decided, and moves the mode to scroll. -/
lemma onPointerMoveTouch_mode_cases (touches : List Touch) :
    (onPointerMoveTouch s touches).touchMode = s.touchMode ∨
    ((onPointerMoveTouch s touches).touchMode = TouchMode.scroll ∧
      s.touchDecided = false ∧ (onPointerMoveTouch s touches).touchDecided = true) := by
  unfold onPointerMoveTouch
  by_cases hg : (!s.pointerIsDown || !canInteract s) = true
  · rw [if_pos hg]
    exact Or.inl rfl
  · rw [if_neg hg]
    rcases hmode : s.touchMode with _ | _ | _
    · -- rotate
      dsimp only
      split_ifs with hd hp
      · right
        exact ⟨rfl, hd.1, rfl⟩
      · left
        simp [handleSinglePointerMove_touchMode, hmode]
      · left
        simp [handleSinglePointerMove_touchMode, hmode]
    · -- zoom
      dsimp only
      left
      rcases s.lastTouches with _ | ⟨l0, _ | ⟨l1, lt⟩⟩ <;>
        rcases touches with _ | ⟨t0, _ | ⟨t1, tt⟩⟩ <;>
        simp [userAdjustOrbit_touchMode, hmode]
    · -- scroll
      dsimp only
      left
      simp [hmode]

end TouchModeLemmas

/-- A state in mid-gesture whose touch intent has been classified as scroll. -/
noncomputable def scrollGestureState : State :=
  { baseState with touchMode := TouchMode.scroll, pointerIsDown := true }

/-- C7.  Touch-intent classification: a touch gesture start (pointer down)
resets the intent to undecided; once the intent is decided a touch move never
changes the mode; a mode change during a move happens only as the single
classification step (intent undecided before, decided after, mode moved to
scroll); and once the gesture is classified as scroll every subsequent touch
move of the gesture is a complete no-op, so no orbit adjustment occurs. -/
theorem touch_intent_decided_once_and_scroll_inert (s : State) (touches : List Touch) :
    (onPointerDownTouch s touches).touchDecided = false ∧
    (s.touchDecided = true →
      (onPointerMoveTouch s touches).touchMode = s.touchMode) ∧
    ((onPointerMoveTouch s touches).touchMode ≠ s.touchMode →
      s.touchDecided = false ∧ (onPointerMoveTouch s touches).touchDecided = true ∧
        (onPointerMoveTouch s touches).touchMode = TouchMode.scroll) ∧
    (s.touchMode = TouchMode.scroll → onPointerMoveTouch s touches = s) := by
  refine ⟨?_, ?_, ?_, onPointerMoveTouch_scroll s touches⟩
  · simp only [onPointerDownTouch, handleSinglePointerDown]
    split <;> rfl
  · intro hdec
    rcases onPointerMoveTouch_mode_cases s touches with h | h
    · exact h
    · rw [h.2.1] at hdec
      exact absurd hdec (by simp)
  · intro hne
    rcases onPointerMoveTouch_mode_cases s touches with h | h
    · exact absurd h hne
    · exact ⟨h.2.1, h.2.2, h.1⟩

/-- C7, witness: on a concrete mid-gesture scroll-classified state, a
horizontal touch move is a no-op and a fresh gesture start resets the intent
decision. -/
theorem touch_intent_decided_once_and_scroll_inert_witness :
    scrollGestureState.touchMode = TouchMode.scroll ∧
    onPointerMoveTouch scrollGestureState
      [{ clientX := 30, clientY := 0 }] = scrollGestureState ∧
    (onPointerDownTouch scrollGestureState
      [{ clientX := 30, clientY := 0 }]).touchDecided = false :=
  ⟨rfl,
    (touch_intent_decided_once_and_scroll_inert scrollGestureState
      [{ clientX := 30, clientY := 0 }]).2.2.2 rfl,
    (touch_intent_decided_once_and_scroll_inert scrollGestureState
      [{ clientX := 30, clientY := 0 }]).1⟩

/-- Modelled from the spec: the configuration error of spec sections 4.3 and
7 (`min > max` on a bounded axis is a configuration error, reported rather
than silently swapped). -/
inductive ConfigError
  | minOverMax
deriving DecidableEq

/-- A pair of optional bounds is well formed unless both are finite with the
minimum above the maximum. -/
def boundsOk : Option ℝ → Option ℝ → Prop
  | some a, some b => a ≤ b
  | _, _ => True

noncomputable instance (lo hi : Option ℝ) : Decidable (boundsOk lo hi) := by
  cases lo <;> cases hi <;> dsimp [boundsOk] <;> infer_instance

/-- The three orbit axes of a configuration are well formed. -/
def orbitBoundsOk (o : Options) : Prop :=
  boundsOk o.minimumAzimuthalAngle o.maximumAzimuthalAngle ∧
  boundsOk o.minimumPolarAngle o.maximumPolarAngle ∧
  boundsOk o.minimumRadius o.maximumRadius

/-- A configuration is valid when every bounded axis has `min <= max`. -/
def optionsValid (o : Options) : Prop :=
  orbitBoundsOk o ∧ o.minimumFieldOfView ≤ o.maximumFieldOfView

/-- Modelled from the spec: the checked clamp of spec section 4.3 — `clamp`
lives in `utilities.js`, which is not under `src/`, and the spec prescribes
that `min > max` is a configuration error that is reported, not silently
swapped. -/
noncomputable def clampOptE (v : ℝ) (lo hi : Option ℝ) : Except ConfigError ℝ :=
  if boundsOk lo hi then Except.ok (clampOpt v lo hi)
  else Except.error ConfigError.minOverMax

/-- Modelled from the spec: checked clamp on two finite bounds. -/
noncomputable def clampRE (v lo hi : ℝ) : Except ConfigError ℝ :=
  if lo ≤ hi then Except.ok (clampR v lo hi) else Except.error ConfigError.minOverMax

lemma clampOptE_ok {lo hi : Option ℝ} (v : ℝ) (h : boundsOk lo hi) :
    clampOptE v lo hi = Except.ok (clampOpt v lo hi) := if_pos h

lemma clampOptE_err {lo hi : Option ℝ} (v : ℝ) (h : ¬ boundsOk lo hi) :
    clampOptE v lo hi = Except.error ConfigError.minOverMax := if_neg h

lemma clampRE_err {lo hi : ℝ} (v : ℝ) (h : ¬ lo ≤ hi) :
    clampRE v lo hi = Except.error ConfigError.minOverMax := if_neg h

/-- `setOrbit` with the checked clamp: a reported error aborts the call at
the point the failing clamp runs (as a thrown exception would in the
source), leaving the goal state as it was at that point. -/
noncomputable def setOrbitE (s : State)
    (goalTheta : ℝ := s.goalSpherical.theta)
    (goalPhi : ℝ := s.goalSpherical.phi)
    (goalRadius : ℝ := s.goalSpherical.radius) : State × Bool × Option ConfigError :=
  let o := s.options
  match clampOptE goalTheta o.minimumAzimuthalAngle o.maximumAzimuthalAngle with
  | Except.error e => (s, false, some e)
  | Except.ok nextTheta =>
    let s1 :=
      if azimuthUnbounded o then
        { s with spherical :=
          { s.spherical with theta := wrapAngle (s.spherical.theta - nextTheta) + nextTheta } }
      else s
    match clampOptE goalPhi o.minimumPolarAngle o.maximumPolarAngle with
    | Except.error e => (s1, false, some e)
    | Except.ok nextPhi =>
      match clampOptE goalRadius o.minimumRadius o.maximumRadius with
      | Except.error e => (s1, false, some e)
      | Except.ok nextRadius =>
        if nextTheta = s.goalSpherical.theta ∧ nextPhi = s.goalSpherical.phi ∧
            nextRadius = s.goalSpherical.radius then
          (s1, false, Option.none)
        else
          ({ s1 with
              goalSpherical :=
                makeSafe { radius := nextRadius, phi := nextPhi, theta := nextTheta },
              isUserChange := false },
            true, Option.none)

/-- `setFieldOfView` with the checked clamp. -/
noncomputable def setFieldOfViewE (s : State) (fov : ℝ) : State × Option ConfigError :=
  match clampRE fov s.options.minimumFieldOfView s.options.maximumFieldOfView with
  | Except.error e => (s, some e)
  | Except.ok f => ({ s with goalLogFov := Real.log f }, Option.none)

/-- `applyOptions` with the checked clamp: merge the overrides, re-run the
orbit clamps, then the field-of-view clamp; the first reported error
propagates to the caller (as a thrown exception would). -/
noncomputable def applyOptionsE (s : State) (p : PartialOptions) : State × Option ConfigError :=
  let s1 := { s with options := mergeOptions s.options p }
  let r := setOrbitE s1
  match r.2.2 with
  | some e => (r.1, some e)
  | Option.none => setFieldOfViewE r.1 (Real.exp r.1.goalLogFov)

lemma setOrbitE_options (s : State) (a p r : ℝ) :
    ((setOrbitE s a p r).1).options = s.options := by
  simp only [setOrbitE]
  repeat' split
  all_goals rfl

lemma setOrbitE_goalLogFov (s : State) (a p r : ℝ) :
    ((setOrbitE s a p r).1).goalLogFov = s.goalLogFov := by
  simp only [setOrbitE]
  repeat' split
  all_goals rfl

lemma setOrbitE_of_invalid (s : State) (a p r : ℝ)
    (h : ¬ orbitBoundsOk s.options) :
    (setOrbitE s a p r).2.2 = some ConfigError.minOverMax ∧
    ((setOrbitE s a p r).1).goalSpherical = s.goalSpherical := by
  by_cases hA : boundsOk s.options.minimumAzimuthalAngle s.options.maximumAzimuthalAngle
  · by_cases hP : boundsOk s.options.minimumPolarAngle s.options.maximumPolarAngle
    · by_cases hR : boundsOk s.options.minimumRadius s.options.maximumRadius
      · exact absurd ⟨hA, hP, hR⟩ h
      · constructor <;>
          · simp only [setOrbitE, clampOptE_ok _ hA, clampOptE_ok _ hP, clampOptE_err _ hR]
            try split_ifs <;> rfl
    · constructor <;>
        · simp only [setOrbitE, clampOptE_ok _ hA, clampOptE_err _ hP]
          try split_ifs <;> rfl
  · constructor <;>
      · simp only [setOrbitE, clampOptE_err _ hA]

lemma setOrbitE_of_valid (s : State) (a p r : ℝ)
    (h : orbitBoundsOk s.options) :
    (setOrbitE s a p r).2.2 = Option.none := by
  obtain ⟨hA, hP, hR⟩ := h
  simp only [setOrbitE, clampOptE_ok _ hA, clampOptE_ok _ hP, clampOptE_ok _ hR]
  split_ifs <;> rfl

/-- C8.  If the configuration produced by merging an `applyOptions` override
has `min > max` on any bounded axis, the checked model reports the
configuration error to the caller at the point `applyOptions` runs, the goal
field of view is never corrupted, and when the offending axis is an orbit
axis the goal spherical state is preserved unchanged (when only the
field-of-view axis is invalid, the orbit axes are re-clamped under their
valid bounds exactly as a plain `applyOptions` would, and the invalid bounds
still touch nothing). -/
theorem applyOptions_reports_invalid_bounds (s : State) (p : PartialOptions)
    (h : ¬ optionsValid (mergeOptions s.options p)) :
    (applyOptionsE s p).2 = some ConfigError.minOverMax ∧
    ((applyOptionsE s p).1).goalLogFov = s.goalLogFov ∧
    (¬ orbitBoundsOk (mergeOptions s.options p) →
      ((applyOptionsE s p).1).goalSpherical = s.goalSpherical) := by
  by_cases hOrb : orbitBoundsOk (mergeOptions s.options p)
  · have hF : ¬ (mergeOptions s.options p).minimumFieldOfView ≤
        (mergeOptions s.options p).maximumFieldOfView := fun hF => h ⟨hOrb, hF⟩
    have h3 : (setOrbitE { s with options := mergeOptions s.options p }
        s.goalSpherical.theta s.goalSpherical.phi s.goalSpherical.radius).2.2 =
        Option.none :=
      setOrbitE_of_valid { s with options := mergeOptions s.options p }
        s.goalSpherical.theta s.goalSpherical.phi s.goalSpherical.radius hOrb
    have hopts : ((setOrbitE { s with options := mergeOptions s.options p }
        s.goalSpherical.theta s.goalSpherical.phi s.goalSpherical.radius).1).options =
        mergeOptions s.options p :=
      setOrbitE_options { s with options := mergeOptions s.options p }
        s.goalSpherical.theta s.goalSpherical.phi s.goalSpherical.radius
    have happ : applyOptionsE s p =
        setFieldOfViewE (setOrbitE { s with options := mergeOptions s.options p }
            s.goalSpherical.theta s.goalSpherical.phi s.goalSpherical.radius).1
          (Real.exp ((setOrbitE { s with options := mergeOptions s.options p }
            s.goalSpherical.theta s.goalSpherical.phi s.goalSpherical.radius).1).goalLogFov) := by
      simp only [applyOptionsE]
      rw [h3]
    have hfov : setFieldOfViewE (setOrbitE { s with options := mergeOptions s.options p }
          s.goalSpherical.theta s.goalSpherical.phi s.goalSpherical.radius).1
        (Real.exp ((setOrbitE { s with options := mergeOptions s.options p }
          s.goalSpherical.theta s.goalSpherical.phi s.goalSpherical.radius).1).goalLogFov) =
        ((setOrbitE { s with options := mergeOptions s.options p }
          s.goalSpherical.theta s.goalSpherical.phi s.goalSpherical.radius).1,
          some ConfigError.minOverMax) := by
      simp only [setFieldOfViewE, hopts]
      rw [clampRE_err _ hF]
    rw [happ, hfov]
    exact ⟨rfl,
      setOrbitE_goalLogFov { s with options := mergeOptions s.options p }
        s.goalSpherical.theta s.goalSpherical.phi s.goalSpherical.radius,
      fun hc => absurd hOrb hc⟩
  · obtain ⟨h3, hg⟩ := setOrbitE_of_invalid { s with options := mergeOptions s.options p }
      s.goalSpherical.theta s.goalSpherical.phi s.goalSpherical.radius hOrb
    have happ : applyOptionsE s p =
        ((setOrbitE { s with options := mergeOptions s.options p }
          s.goalSpherical.theta s.goalSpherical.phi s.goalSpherical.radius).1,
          some ConfigError.minOverMax) := by
      simp only [applyOptionsE]
      rw [h3]
    rw [happ]
    exact ⟨rfl,
      setOrbitE_goalLogFov { s with options := mergeOptions s.options p }
        s.goalSpherical.theta s.goalSpherical.phi s.goalSpherical.radius,
      fun _ => hg⟩

/-- C8, witness: merging `minimumRadius = 5, maximumRadius = 2` into the
default options is reported as a configuration error and the goal state is
untouched. -/
theorem applyOptions_reports_invalid_bounds_witness :
    ¬ optionsValid (mergeOptions baseState.options
      { minimumRadius := some (some 5), maximumRadius := some (some 2) }) ∧
    (applyOptionsE baseState
      { minimumRadius := some (some 5), maximumRadius := some (some 2) }).2 =
      some ConfigError.minOverMax ∧
    ((applyOptionsE baseState
      { minimumRadius := some (some 5), maximumRadius := some (some 2) }).1).goalLogFov =
      baseState.goalLogFov ∧
    ((applyOptionsE baseState
      { minimumRadius := some (some 5), maximumRadius := some (some 2) }).1).goalSpherical =
      baseState.goalSpherical := by
  have hbad : ¬ optionsValid (mergeOptions baseState.options
      { minimumRadius := some (some 5), maximumRadius := some (some 2) }) := by
    intro hv
    have hR := hv.1.2.2
    have : (5 : ℝ) ≤ 2 := hR
    norm_num at this
  have horb : ¬ orbitBoundsOk (mergeOptions baseState.options
      { minimumRadius := some (some 5), maximumRadius := some (some 2) }) := by
    intro hv
    have hR := hv.2.2
    have : (5 : ℝ) ≤ 2 := hR
    norm_num at this
  obtain ⟨h1, h2, h3⟩ := applyOptions_reports_invalid_bounds baseState
    { minimumRadius := some (some 5), maximumRadius := some (some 2) } hbad
  exact ⟨hbad, h1, h2, h3 horb⟩

/-- The zoom-synchrony scenario of the spec: goal radius 1, goal field of
view at 45 degrees, `maximumRadius = 2` (with the default
`minimumRadius = 0` and `minimumFieldOfView = 10`). -/
noncomputable def zoomSyncState : State :=
  { baseState with options := { DEFAULT_OPTIONS with maximumRadius := some 2 } }

lemma adjustOrbit_goalLogFov_of_ne (s : State) (dTheta dPhi dZoom : ℝ) (h : dZoom ≠ 0) :
    (adjustOrbit s dTheta dPhi dZoom).goalLogFov =
      Real.log (clampR (Real.exp (s.goalLogFov + dZoom))
        s.options.minimumFieldOfView s.options.maximumFieldOfView) := by
  simp only [adjustOrbit]
  rw [if_pos h, setFieldOfView]
  rw [setOrbit_goalLogFov, setOrbit_options]

/-- C2.  In the spec scenario (goal radius 1, fov 45 degrees,
`maximumRadius = 2`, `minimumFieldOfView = 10`, `minimumRadius = 0`), every
negative `deltaZoom` in the admissible range moves the goal radius and the
goal log field of view in the synchronized ratio
`(radius change) / (minimumRadius - radius) = deltaZoom / (log minFov - log fov)`,
and the delta that brings the field of view exactly to its minimum brings the
radius exactly to its minimum in the same call: both extremes are reached
together. -/
theorem adjustOrbit_zoom_radius_fov_in_sync (z : ℝ)
    (hz1 : Real.log 10 - Real.log 45 ≤ z) (hz2 : z < 0) :
    ((adjustOrbit zoomSyncState 0 0 z).goalSpherical.radius - 1) *
        (Real.log 10 - Real.log 45) = z * ((0 : ℝ) - 1) ∧
    (adjustOrbit zoomSyncState 0 0 z).goalLogFov = Real.log 45 + z ∧
    (z = Real.log 10 - Real.log 45 →
      (adjustOrbit zoomSyncState 0 0 z).goalSpherical.radius = 0 ∧
      (adjustOrbit zoomSyncState 0 0 z).goalLogFov = Real.log 10) := by
  have hlog : Real.log 10 < Real.log 45 := Real.log_lt_log (by norm_num) (by norm_num)
  have h45 : (0 : ℝ) < Real.log 45 - Real.log 10 := by linarith
  have hden : Real.log 10 - Real.log 45 ≠ 0 := by intro hc; linarith
  have hz0 : ¬ (0 < z) := not_lt.mpr hz2.le
  have hzne : z ≠ 0 := ne_of_lt hz2
  -- the log range of the scenario is at least one half
  have hhalf : (1 : ℝ) / 2 ≤ Real.log 45 - Real.log 10 := by
    have hdiv : Real.log 45 - Real.log 10 = Real.log (45 / 10) :=
      (Real.log_div (by norm_num) (by norm_num)).symm
    rw [hdiv]
    rw [Real.le_log_iff_exp_le (by norm_num : (0:ℝ) < 45 / 10)]
    have hsq : Real.exp (1 / 2 : ℝ) * Real.exp (1 / 2 : ℝ) = Real.exp 1 := by
      rw [← Real.exp_add]; norm_num
    have hlt := Real.exp_one_lt_d9
    nlinarith [Real.exp_pos (1 / 2 : ℝ)]
  -- the finite zoom ratio of the scenario
  have hratio : (0 - 1) / (Real.log 10 - Real.log 45) = 1 / (Real.log 45 - Real.log 10) := by
    rw [div_eq_div_iff hden (by linarith)]
    ring
  have hratio_pos : 0 < (0 - 1) / (Real.log 10 - Real.log 45) := by
    rw [hratio]
    positivity
  have hratio_le : (0 - 1) / (Real.log 10 - Real.log 45) ≤ 2 - 0 := by
    rw [hratio, div_le_iff h45]
    nlinarith
  -- the goal radius expression of the call
  have hgr : adjustOrbitGoalRadius zoomSyncState z =
      1 + z * ((0 - 1) / (Real.log 10 - Real.log 45)) := by
    simp only [adjustOrbitGoalRadius, if_neg hz0, if_neg hzne, zoomSyncState, baseState,
      DEFAULT_OPTIONS]
    rw [if_neg (by exact hden)]
    dsimp only
    rw [min_eq_left hratio_le]
  -- range facts about the new goal radius
  have hA0 : 0 ≤ 1 + z * ((0 - 1) / (Real.log 10 - Real.log 45)) := by
    rw [hratio]
    have : z * (1 / (Real.log 45 - Real.log 10)) ≥
        (Real.log 10 - Real.log 45) * (1 / (Real.log 45 - Real.log 10)) := by
      apply mul_le_mul_of_nonneg_right hz1
      positivity
    have hcan : (Real.log 10 - Real.log 45) * (1 / (Real.log 45 - Real.log 10)) = -1 := by
      rw [mul_one_div, div_eq_iff (by linarith : Real.log 45 - Real.log 10 ≠ 0)]
      ring
    nlinarith
  have hA1 : 1 + z * ((0 - 1) / (Real.log 10 - Real.log 45)) < 1 := by
    nlinarith
  -- the radius clamp of the second call is the identity
  have hclr : clampOpt (1 + z * ((0 - 1) / (Real.log 10 - Real.log 45)))
      zoomSyncState.options.minimumRadius zoomSyncState.options.maximumRadius =
      1 + z * ((0 - 1) / (Real.log 10 - Real.log 45)) := by
    show clampOpt _ (some 0) (some 2) = _
    rw [clampOpt_some_some, min_eq_right (by linarith), max_eq_right hA0]
  -- the goal radius after the call
  have hrad : (adjustOrbit zoomSyncState 0 0 z).goalSpherical.radius =
      1 + z * ((0 - 1) / (Real.log 10 - Real.log 45)) := by
    rw [adjustOrbit_goalSpherical_eq]
    rw [hgr]
    have hne : ¬ (clampOpt (zoomSyncState.goalSpherical.theta -
          clampR 0 (-(Real.pi - 0.001) -
            (zoomSyncState.spherical.theta - zoomSyncState.goalSpherical.theta))
            ((Real.pi - 0.001) -
              (zoomSyncState.spherical.theta - zoomSyncState.goalSpherical.theta)))
          zoomSyncState.options.minimumAzimuthalAngle
          zoomSyncState.options.maximumAzimuthalAngle =
            zoomSyncState.goalSpherical.theta ∧
        clampOpt (zoomSyncState.goalSpherical.phi - 0)
          zoomSyncState.options.minimumPolarAngle
          zoomSyncState.options.maximumPolarAngle = zoomSyncState.goalSpherical.phi ∧
        clampOpt (1 + z * ((0 - 1) / (Real.log 10 - Real.log 45)))
          zoomSyncState.options.minimumRadius
          zoomSyncState.options.maximumRadius = zoomSyncState.goalSpherical.radius) := by
      intro hc
      have h3 := hc.2.2
      rw [hclr] at h3
      have hgr1 : zoomSyncState.goalSpherical.radius = 1 := rfl
      rw [hgr1] at h3
      linarith
    obtain ⟨hgoal, -⟩ := setOrbit_goalSpherical_changed zoomSyncState _ _ _ hne
    rw [hgoal]
    show clampOpt (1 + z * ((0 - 1) / (Real.log 10 - Real.log 45)))
        zoomSyncState.options.minimumRadius zoomSyncState.options.maximumRadius = _
    exact hclr
  -- the goal log field of view after the call
  have hfovrange1 : Real.exp (zoomSyncState.goalLogFov + z) ≤ 45 := by
    have h1 : zoomSyncState.goalLogFov = Real.log 45 := rfl
    rw [h1]
    calc Real.exp (Real.log 45 + z) ≤ Real.exp (Real.log 45) :=
          Real.exp_le_exp.mpr (by linarith)
      _ = 45 := Real.exp_log (by norm_num)
  have hfovrange2 : 10 ≤ Real.exp (zoomSyncState.goalLogFov + z) := by
    have h1 : zoomSyncState.goalLogFov = Real.log 45 := rfl
    rw [h1]
    calc (10 : ℝ) = Real.exp (Real.log 10) := (Real.exp_log (by norm_num)).symm
      _ ≤ Real.exp (Real.log 45 + z) := Real.exp_le_exp.mpr (by linarith)
  have hfov : (adjustOrbit zoomSyncState 0 0 z).goalLogFov = Real.log 45 + z := by
    rw [adjustOrbit_goalLogFov_of_ne zoomSyncState 0 0 z hzne]
    have hcl : clampR (Real.exp (zoomSyncState.goalLogFov + z))
        zoomSyncState.options.minimumFieldOfView
        zoomSyncState.options.maximumFieldOfView =
        Real.exp (zoomSyncState.goalLogFov + z) := by
      show clampR _ 10 45 = _
      rw [clampR, min_eq_right hfovrange1, max_eq_right hfovrange2]
    rw [hcl, Real.log_exp]
    rfl
  refine ⟨?_, hfov, ?_⟩
  · rw [hrad]
    field_simp
  · intro hz
    constructor
    · rw [hrad, hz]
      field_simp
    · rw [hfov, hz]
      ring

/-- C2, witness: the delta `log 10 - log 45` itself satisfies the
hypotheses, and at that delta the goal radius reaches `minimumRadius = 0`
exactly as the goal log field of view reaches `log 10`. -/
theorem adjustOrbit_zoom_radius_fov_in_sync_witness :
    (Real.log 10 - Real.log 45 ≤ Real.log 10 - Real.log 45) ∧
    (Real.log 10 - Real.log 45 < 0) ∧
    (adjustOrbit zoomSyncState 0 0 (Real.log 10 - Real.log 45)).goalSpherical.radius = 0 ∧
    (adjustOrbit zoomSyncState 0 0 (Real.log 10 - Real.log 45)).goalLogFov = Real.log 10 := by
  have hlog : Real.log 10 < Real.log 45 := Real.log_lt_log (by norm_num) (by norm_num)
  have hz2 : Real.log 10 - Real.log 45 < 0 := by linarith
  obtain ⟨-, -, h3⟩ := adjustOrbit_zoom_radius_fov_in_sync (Real.log 10 - Real.log 45)
    le_rfl hz2
  obtain ⟨hr, hf⟩ := h3 rfl
  exact ⟨le_rfl, hz2, hr, hf⟩

/-- The shortest-path-wrap scenario of the spec: azimuth unbounded (default
options), current azimuth 3.0 radians, goal azimuth -3.0 radians, every
other axis settled. -/
noncomputable def seamState : State :=
  { baseState with
      spherical := { radius := 1, phi := Real.pi / 2, theta := 3 },
      goalSpherical := { radius := 1, phi := Real.pi / 2, theta := -3 } }

lemma moveCamera_theta (s : State) : (moveCamera s).spherical.theta = s.spherical.theta := rfl

/-- C6.  With the azimuth unbounded and current azimuth 3.0 against goal
azimuth -3.0 (shortest-path difference `6 > pi`), `update` applies the
long-path correction (shifting the current azimuth by `-2 pi` to `3 - 2 pi`)
and then interpolates, so the new current azimuth lies strictly between
`3 - 2 pi` and `-3` — on the far side of the `pi` seam — with its angular
distance to the goal strictly below the seam distance `2 pi - 6` (and in
particular below `pi`), not the long way through 0. -/
theorem update_crosses_pi_seam (delta : ℝ) (hd : 0 < delta) :
    3 - 2 * Real.pi < (update seamState 0 delta).spherical.theta ∧
    (update seamState 0 delta).spherical.theta < -3 ∧
    |(update seamState 0 delta).spherical.theta - seamState.goalSpherical.theta| <
      2 * Real.pi - 6 := by
  have hpi3 := Real.pi_gt_three
  have hpi315 := Real.pi_lt_d2
  have hstat : ¬ isStationary seamState := by
    intro h
    have h1 : (-3 : ℝ) = 3 := h.1
    linarith
  have hcond : Real.pi < |seamState.spherical.theta - seamState.goalSpherical.theta| ∧
      azimuthUnbounded seamState.options = true := by
    constructor
    · show Real.pi < |(3 : ℝ) - (-3)|
      rw [show |(3 : ℝ) - (-3)| = 6 by norm_num]
      linarith
    · rfl
  have hsign : Real.sign (seamState.spherical.theta - seamState.goalSpherical.theta) = 1 := by
    show Real.sign ((3 : ℝ) - (-3)) = 1
    rw [show ((3 : ℝ) - (-3)) = 6 by norm_num]
    exact Real.sign_of_pos (by norm_num)
  have hupd : (update seamState 0 delta).spherical.theta =
      damperUpdate (seamState.spherical.theta -
          Real.sign (seamState.spherical.theta - seamState.goalSpherical.theta) *
            (2 * Real.pi))
        seamState.goalSpherical.theta delta seamState.decayTime := by
    simp only [update]
    rw [if_neg hstat, if_pos hcond, moveCamera_theta]
  rw [hupd, hsign]
  have hth : seamState.spherical.theta = 3 := rfl
  have hgo : seamState.goalSpherical.theta = -3 := rfl
  have hdec : seamState.decayTime = 50 := rfl
  rw [hth, hgo, hdec, damperUpdate]
  have hE0 : 0 < Real.exp (-(delta / 50)) := Real.exp_pos _
  have hE1 : Real.exp (-(delta / 50)) < 1 := by
    rw [Real.exp_lt_one_iff]
    have : 0 < delta / 50 := by positivity
    linarith
  set E := Real.exp (-(delta / 50)) with hEdef
  refine ⟨by nlinarith, by nlinarith, ?_⟩
  have hval : -3 + (3 - 1 * (2 * Real.pi) - -3) * E - -3 = (6 - 2 * Real.pi) * E := by
    ring
  rw [hval]
  rw [abs_of_neg (by nlinarith)]
  nlinarith

/-- C6, witness: one update of 50 milliseconds (one decay time). -/
theorem update_crosses_pi_seam_witness :
    (0 : ℝ) < 50 ∧
    (3 - 2 * Real.pi < (update seamState 0 50).spherical.theta ∧
      (update seamState 0 50).spherical.theta < -3 ∧
      |(update seamState 0 50).spherical.theta - seamState.goalSpherical.theta| <
        2 * Real.pi - 6) :=
  ⟨by norm_num, update_crosses_pi_seam 50 (by norm_num)⟩

/-- The pole-safety invariant: both the current (rendered) and the goal
polar angle lie in the safe band `[makeSafeEps, pi - makeSafeEps]`. -/
def SafePhi (s : State) : Prop :=
  makeSafeEps ≤ s.spherical.phi ∧ s.spherical.phi ≤ Real.pi - makeSafeEps ∧
  makeSafeEps ≤ s.goalSpherical.phi ∧ s.goalSpherical.phi ≤ Real.pi - makeSafeEps

lemma makeSafeEps_le : makeSafeEps ≤ Real.pi - makeSafeEps := by
  rw [makeSafeEps]
  have := Real.pi_gt_three
  linarith

lemma makeSafe_phi_mem (sp : Spherical) :
    makeSafeEps ≤ (makeSafe sp).phi ∧ (makeSafe sp).phi ≤ Real.pi - makeSafeEps := by
  constructor
  · exact le_max_left _ _
  · exact max_le makeSafeEps_le (min_le_left _ _)

lemma setOrbit_safePhi (s : State) (a p r : ℝ) (h : SafePhi s) :
    SafePhi ((setOrbit s a p r).1) := by
  by_cases hch : (clampOpt a s.options.minimumAzimuthalAngle
        s.options.maximumAzimuthalAngle = s.goalSpherical.theta ∧
      clampOpt p s.options.minimumPolarAngle
        s.options.maximumPolarAngle = s.goalSpherical.phi ∧
      clampOpt r s.options.minimumRadius
        s.options.maximumRadius = s.goalSpherical.radius)
  · obtain ⟨hg, -⟩ := setOrbit_unchanged s a p r hch
    refine ⟨?_, ?_, ?_, ?_⟩
    · rw [setOrbit_current_phi]; exact h.1
    · rw [setOrbit_current_phi]; exact h.2.1
    · rw [hg]; exact h.2.2.1
    · rw [hg]; exact h.2.2.2
  · obtain ⟨hg, -⟩ := setOrbit_goalSpherical_changed s a p r hch
    refine ⟨?_, ?_, ?_, ?_⟩
    · rw [setOrbit_current_phi]; exact h.1
    · rw [setOrbit_current_phi]; exact h.2.1
    · rw [hg]; exact (makeSafe_phi_mem _).1
    · rw [hg]; exact (makeSafe_phi_mem _).2

lemma setFieldOfView_safePhi (s : State) (fov : ℝ) (h : SafePhi s) :
    SafePhi (setFieldOfView s fov) := h

lemma adjustOrbit_safePhi (s : State) (dTheta dPhi dZoom : ℝ) (h : SafePhi s) :
    SafePhi (adjustOrbit s dTheta dPhi dZoom) := by
  have hs := setOrbit_safePhi s
    (s.goalSpherical.theta -
      clampR dTheta
        (-(Real.pi - 0.001) - (s.spherical.theta - s.goalSpherical.theta))
        ((Real.pi - 0.001) - (s.spherical.theta - s.goalSpherical.theta)))
    (s.goalSpherical.phi - dPhi)
    (adjustOrbitGoalRadius s dZoom) h
  unfold SafePhi at hs ⊢
  rw [adjustOrbit_goalSpherical_eq, adjustOrbit_spherical_eq]
  exact hs

lemma setRadius_safePhi (s : State) (r : ℝ) (h : SafePhi s) :
    SafePhi (setRadius s r) :=
  setOrbit_safePhi _ _ _ _ h

lemma applyOptions_safePhi (s : State) (p : PartialOptions) (h : SafePhi s) :
    SafePhi (applyOptions s p) :=
  setFieldOfView_safePhi _ _ (setOrbit_safePhi _ _ _ _ h)

lemma update_goalSpherical (s : State) (t d : ℝ) :
    (update s t d).goalSpherical = s.goalSpherical := by
  simp only [update]
  split_ifs <;> rfl

lemma update_not_stationary_phi (s : State) (t d : ℝ) (h : ¬ isStationary s) :
    makeSafeEps ≤ (update s t d).spherical.phi ∧
    (update s t d).spherical.phi ≤ Real.pi - makeSafeEps := by
  simp only [update]
  rw [if_neg h]
  split_ifs
  · exact makeSafe_phi_mem _
  · exact makeSafe_phi_mem _

lemma update_safePhi (s : State) (t d : ℝ) (h : SafePhi s) : SafePhi (update s t d) := by
  by_cases hst : isStationary s
  · simp only [update]
    rw [if_pos hst]
    exact h
  · refine ⟨(update_not_stationary_phi s t d hst).1,
      (update_not_stationary_phi s t d hst).2, ?_, ?_⟩
    · rw [update_goalSpherical]; exact h.2.2.1
    · rw [update_goalSpherical]; exact h.2.2.2

lemma applyOp_safePhi (s : State) (op : Op) (h : SafePhi s) : SafePhi (applyOp s op) := by
  cases op with
  | setOrbit a p r => exact setOrbit_safePhi s a p r h
  | adjustOrbit a b c => exact adjustOrbit_safePhi s a b c h
  | setRadius r => exact setRadius_safePhi s r h
  | setFieldOfView f => exact setFieldOfView_safePhi s f h
  | applyOptions p => exact applyOptions_safePhi s p h
  | update t d => exact update_safePhi s t d h

lemma applyOps_safePhi (ops : List Op) (s : State) (h : SafePhi s) :
    SafePhi (applyOps s ops) := by
  induction ops generalizing s with
  | nil => exact h
  | cons op t ih => exact ih (applyOp s op) (applyOp_safePhi s op h)

lemma initialState_safePhi (cam : Camera) (el : Element) :
    SafePhi (initialState cam el) := by
  have hpi3 := Real.pi_gt_three
  -- the constructor call setOrbit(0, pi / 2, 1) changes the polar goal
  -- (its clamp is at least pi / 8, while the fresh goal polar is 0),
  -- so the stored goal polar is a makeSafe output, inside the safe band
  have hgephi : Real.pi / 8 ≤ clampOpt (Real.pi / 2) (some (Real.pi / 8))
      (some (Real.pi - Real.pi / 8)) := by
    rw [clampOpt_some_some]
    exact le_max_left _ _
  simp only [initialState]
  set s0 : State :=
    { options := DEFAULT_OPTIONS
      camera := cam
      element := el
      sensitivity := 1
      interactionEnabled := false
      disableZoom := false
      isUserChange := false
      isUserPointing := false
      spherical := { radius := 1, phi := 0, theta := 0 }
      goalSpherical := { radius := 1, phi := 0, theta := 0 }
      logFov := Real.log DEFAULT_OPTIONS.maximumFieldOfView
      goalLogFov := Real.log DEFAULT_OPTIONS.maximumFieldOfView
      pointerIsDown := false
      lastPointerPosition := { clientX := 0, clientY := 0 }
      touchMode := TouchMode.rotate
      touchDecided := false
      lastTouches := []
      decayTime := 50 } with hs0
  have hch : ¬ (clampOpt 0 s0.options.minimumAzimuthalAngle
        s0.options.maximumAzimuthalAngle = s0.goalSpherical.theta ∧
      clampOpt (Real.pi / 2) s0.options.minimumPolarAngle
        s0.options.maximumPolarAngle = s0.goalSpherical.phi ∧
      clampOpt 1 s0.options.minimumRadius
        s0.options.maximumRadius = s0.goalSpherical.radius) := by
    intro hc
    have h2 := hc.2.1
    have hz : s0.goalSpherical.phi = 0 := rfl
    have hb : clampOpt (Real.pi / 2) s0.options.minimumPolarAngle
        s0.options.maximumPolarAngle =
        clampOpt (Real.pi / 2) (some (Real.pi / 8)) (some (Real.pi - Real.pi / 8)) := rfl
    rw [hz, hb] at h2
    linarith [hgephi]
  obtain ⟨hg1, -⟩ := setOrbit_goalSpherical_changed s0 0 (Real.pi / 2) 1 hch
  -- the state after the constructor setOrbit and setFieldOfView calls
  set s1 : State := (setOrbit s0 0 (Real.pi / 2) 1).1 with hs1
  set s2 : State := setFieldOfView s1 100 with hs2
  have hs2goal : s2.goalSpherical = s1.goalSpherical := rfl
  have hs2cur : s2.spherical = s1.spherical := rfl
  have hcurphi : s1.spherical.phi = 0 := setOrbit_current_phi s0 0 (Real.pi / 2) 1
  have hgoalband := makeSafe_phi_mem
    { radius := clampOpt 1 s0.options.minimumRadius s0.options.maximumRadius,
      phi := clampOpt (Real.pi / 2) s0.options.minimumPolarAngle s0.options.maximumPolarAngle,
      theta := clampOpt 0 s0.options.minimumAzimuthalAngle s0.options.maximumAzimuthalAngle }
  have hgphi1 : makeSafeEps ≤ s1.goalSpherical.phi ∧
      s1.goalSpherical.phi ≤ Real.pi - makeSafeEps := by
    rw [hs1, hg1]
    exact hgoalband
  have hstat : ¬ isStationary s2 := by
    intro hc
    have h2 := hc.2.1
    rw [hs2] at h2
    have h2' : s1.goalSpherical.phi = s1.spherical.phi := h2
    rw [hcurphi] at h2'
    have heps : (0 : ℝ) < makeSafeEps := by rw [makeSafeEps]; norm_num
    have := hgphi1.1
    linarith
  refine ⟨(update_not_stationary_phi s2 0 SETTLING_TIME hstat).1,
    (update_not_stationary_phi s2 0 SETTLING_TIME hstat).2, ?_, ?_⟩
  · simp only [jumpToGoal]
    rw [update_goalSpherical, hs2goal]
    exact hgphi1.1
  · simp only [jumpToGoal]
    rw [update_goalSpherical, hs2goal]
    exact hgphi1.2

/-- C9.  After construction and after every sequence of public operations
(`setOrbit`, `adjustOrbit`, `setRadius`, `setFieldOfView`, `applyOptions`,
`update`), the polar angle of both the goal spherical state and the rendered
current spherical state lies strictly inside the pole-avoidance interval
`(makeSafeEps / 2, pi - makeSafeEps / 2)` — in fact inside the closed safe
band `[makeSafeEps, pi - makeSafeEps]` — so the derived look direction never
passes through the vertical poles. -/
theorem polar_always_in_safe_band (cam : Camera) (el : Element) (ops : List Op) :
    makeSafeEps / 2 < (applyOps (initialState cam el) ops).spherical.phi ∧
    (applyOps (initialState cam el) ops).spherical.phi < Real.pi - makeSafeEps / 2 ∧
    makeSafeEps / 2 < (applyOps (initialState cam el) ops).goalSpherical.phi ∧
    (applyOps (initialState cam el) ops).goalSpherical.phi <
      Real.pi - makeSafeEps / 2 := by
  have h := applyOps_safePhi ops (initialState cam el) (initialState_safePhi cam el)
  have heps : (0 : ℝ) < makeSafeEps := by rw [makeSafeEps]; norm_num
  exact ⟨by linarith [h.1], by linarith [h.2.1], by linarith [h.2.2.1],
    by linarith [h.2.2.2]⟩

/-- C5, counterexample.  The claim states that `wrapAngle` lands in the
half-open interval `(-pi, pi]`; at the input `pi` the source computes
`wrapAngle(pi) = -pi`, which is outside `(-pi, pi]` (the actual range is
`[-pi, pi)`). -/
theorem wrapAngle_at_pi_escapes_Ioc :
    wrapAngle Real.pi = -Real.pi ∧ ¬ (wrapAngle Real.pi ∈ Set.Ioc (-Real.pi) Real.pi) := by
  have hpi : Real.pi ≠ 0 := ne_of_gt Real.pi_pos
  have hval : wrapAngle Real.pi = -Real.pi := by
    have hdiv : (Real.pi + Real.pi) / (2 * Real.pi) = 1 := by
      field_simp
      ring
    rw [wrapAngle, hdiv]
    norm_num
  refine ⟨hval, ?_⟩
  rw [hval]
  simp [Set.mem_Ioc]

/-- C5, amended.  For every real angle, `wrapAngle` returns a value in the
half-open interval `[-pi, pi)` (not `(-pi, pi]` as claimed) that differs from
the input by an exact integer multiple of `2 pi`. -/
theorem wrapAngle_mem_Ico_and_congruent (r : ℝ) :
    wrapAngle r ∈ Set.Ico (-Real.pi) Real.pi ∧
      ∃ k : ℤ, wrapAngle r = r + 2 * Real.pi * k :=
  ⟨⟨wrapAngle_lower r, wrapAngle_upper r⟩, wrapAngle_congruent r⟩

end SmoothControls
